import Mathlib

/-!
# Verification of the variant-research plugin scripts

Shallow embedding of the Python scripts under
`plugins/variant-research/skills/variant-research/scripts/` and proofs of the
specification claims about them.  Python strings are modelled as Lean
`String`, Python `None`-able values as `Option`, JSON numbers that the code
only ever formats (never computes with) as their printed `String` form,
Python `float` values as the `PyFloat` type below, wall-clock time as `ℚ`,
and HTTP traffic as explicit oracles passed to each fetcher.
-/

set_option maxRecDepth 4000

namespace VariantResearch

/-- Model of Python's substring test: `charsStartWith needle hay` is true when
`needle` is an initial segment of `hay`. -/
def charsStartWith : List Char → List Char → Bool
  | [], _ => true
  | _ :: _, [] => false
  | a :: as, b :: bs => a == b && charsStartWith as bs

/-- `charsContain hay needle` models Python's `needle in hay` on character
lists: the needle occurs contiguously somewhere in the haystack. -/
def charsContain : List Char → List Char → Bool
  | [], needle => charsStartWith needle []
  | h :: t, needle => charsStartWith needle (h :: t) || charsContain t needle

/-- Python's `sub in hay` on strings. -/
def strContains (hay sub : String) : Bool :=
  charsContain hay.data sub.data

/-- Python's `s.lower()`.  (Implemented directly on the character list so the
kernel can evaluate it; `String.toLower` itself does not kernel-reduce.) -/
def strLower (s : String) : String := ⟨s.data.map Char.toLower⟩

/-- Python's `s.upper()`. -/
def strUpper (s : String) : String := ⟨s.data.map Char.toUpper⟩

/-- Python's `s.strip()` with no argument: remove leading and trailing
whitespace. -/
def pyStrip (s : String) : String :=
  ⟨((s.data.dropWhile Char.isWhitespace).reverse.dropWhile Char.isWhitespace).reverse⟩

/-- Python's `s.startswith(pre)`. -/
def strStartsWith (s pre : String) : Bool := charsStartWith pre.data s.data

/-- Python's `s[:n]` (both languages index by code point here). -/
def strTake (s : String) (n : Nat) : String := ⟨s.data.take n⟩

/-- Python's `len(s)`. -/
def strLen (s : String) : Nat := s.data.length

/-- The worker for `strSplitOn`: cut `cs` at every occurrence of the nonempty
separator `sep`.  Structural recursion on a fuel argument (kept at least
`cs.length`, so the fuel-0 case is unreachable) so the kernel can evaluate
it. -/
def splitCharsGo (sep : List Char) : Nat → List Char → List (List Char)
  | 0, cs => [cs]
  | fuel + 1, cs =>
    match cs with
    | [] => [[]]
    | c :: cs' =>
      if charsStartWith sep cs then
        [] :: splitCharsGo sep fuel (List.drop sep.length cs)
      else
        match splitCharsGo sep fuel cs' with
        | [] => [[c]]
        | p :: ps => (c :: p) :: ps

/-- Python's `s.split(sep)` for a nonempty literal separator: keeps empty
pieces (`"a,,b".split(",") == ["a","","b"]`, `"".split(",") == [""]`). -/
def strSplitOn (s sep : String) : List String :=
  if sep.data = [] then [s]
  else (splitCharsGo sep.data s.data.length s.data).map fun cs => ⟨cs⟩

/-- Python's `s.split()` with no argument: split on whitespace runs and drop
empty pieces. -/
def pySplitWs (s : String) : List String :=
  ((s.data.splitOnP Char.isWhitespace).map fun cs => (⟨cs⟩ : String)).filter (· ≠ "")

/-! ## `fetch_patents.py` : `_classify_patent`  (claim C1) -/

namespace Patents

def drug_keywords : List String :=
  ["drug", "pharmaceutical", "compound", "inhibitor", "antagonist",
   "agonist", "antibody", "sirna", "antisense", "oligonucleotide",
   "small molecule", "formulation", "dosage"]

def diagnostic_keywords : List String :=
  ["diagnostic", "biomarker", "assay", "detection", "screening",
   "probe", "marker", "test", "kit"]

def therapeutic_keywords : List String :=
  ["treatment", "therapy", "therapeutic", "method of treating",
   "disease", "disorder"]

/-- `sum(1 for kw in kws if kw in text)`. -/
def keywordScore (kws : List String) (text : String) : Nat :=
  (kws.filter (fun kw => strContains text kw)).length

/-- The classifier's search text: `(title + " " + abstract).lower()`. -/
def patentText (title abstract : String) : String :=
  strLower (title ++ " " ++ abstract)

def drug_score (title abstract : String) : Nat :=
  keywordScore drug_keywords (patentText title abstract)

def diag_score (title abstract : String) : Nat :=
  keywordScore diagnostic_keywords (patentText title abstract)

def ther_score (title abstract : String) : Nat :=
  keywordScore therapeutic_keywords (patentText title abstract)

/-- `_classify_patent` from `fetch_patents.py`. -/
def _classify_patent (title abstract : String) : String :=
  if drug_score title abstract ≥ diag_score title abstract ∧
      drug_score title abstract > ther_score title abstract then "drug"
  else if diag_score title abstract > drug_score title abstract ∧
      diag_score title abstract > ther_score title abstract then "diagnostic"
  else if ther_score title abstract > 0 then "therapeutic"
  else "other"

/-! ### `search_patents` and `fetch_all_patents`

HTTP traffic is modelled by an oracle `net : String → Except String _` giving,
for each query string, either the parsed `patents` array of the response or
the message of a raised `requests.RequestException`.  Each fetcher returns its
result paired with the number of HTTP requests it issued; `per_page`/`max`
request parameters that only shape the server's response are carried by the
oracle. -/

/-- One element of a patent's `assignees` array. -/
structure RawAssignee where
  assignee_organization : Option String
  assignee_first_name : Option String
deriving DecidableEq, Repr

/-- One patent object of a PatentsView response. -/
structure RawPatent where
  patent_id : Option String
  patent_title : Option String
  patent_abstract : Option String
  patent_date : Option String
  assignees : Option (List RawAssignee)
deriving DecidableEq, Repr

/-- A normalized patent entry as appended by `search_patents`. -/
structure PatentEntry where
  patent_number : String
  title : String
  assignee : String
  date : String
  abstract_snippet : String
  classification : String
deriving DecidableEq, Repr

/-- The per-patent normalization step of `search_patents` (loop body over
`data.get("patents", [])`). -/
def mkPatentEntry (p : RawPatent) : PatentEntry :=
  let assignee : String :=
    match p.assignees with
    | some (first :: _) =>
      let org := first.assignee_organization.getD ""
      if org = "" then first.assignee_first_name.getD "Unknown" else org
    | _ => ""
  let abstract := p.patent_abstract.getD ""
  let abstract_snippet :=
    if strLen abstract > 250 then strTake abstract 250 ++ "..." else abstract
  { patent_number := p.patent_id.getD ""
    title := p.patent_title.getD ""
    assignee := if assignee = "" then "Unknown" else assignee
    date := p.patent_date.getD ""
    abstract_snippet := abstract_snippet
    classification := _classify_patent (p.patent_title.getD "") abstract }

/-- The result shape of `fetch_all_patents`. -/
structure PatentsResult where
  rsid : String
  gene_symbol : String
  patents : List PatentEntry
  search_queries_used : List String
  errors : List String
deriving DecidableEq, Repr

/-- The `queries` list built by `fetch_all_patents`. -/
def patentQueries (gene_symbol gene_name : String) : List String :=
  [gene_symbol,
   gene_symbol ++ " drug therapeutic inhibitor",
   gene_symbol ++ " diagnostic biomarker"]
  ++ (if gene_name ≠ "" then [gene_symbol ++ " " ++ gene_name] else [])
  ++ (if gene_name ≠ "" ∧ (pySplitWs gene_name).length > 1 then
        [gene_name ++ " antisense siRNA oligonucleotide"] else [])

/-- The inner dedup loop of `fetch_all_patents`: keep entries whose (nonempty)
patent number has not been seen, threading the `seen_numbers` set. -/
def addPatents : List String → List PatentEntry → List String × List PatentEntry
  | seen, [] => (seen, [])
  | seen, p :: ps =>
    if p.patent_number ≠ "" ∧ ¬ seen.contains p.patent_number then
      let rec' := addPatents (p.patent_number :: seen) ps
      (rec'.1, p :: rec'.2)
    else addPatents seen ps

/-- The query loop of `fetch_all_patents`; also counts HTTP requests. -/
def patentsLoop (net : String → Except String (List RawPatent)) :
    List String → List String → PatentsResult → PatentsResult × Nat
  | [], _, acc => (acc, 0)
  | q :: qs, seen, acc =>
    let acc1 := { acc with search_queries_used := acc.search_queries_used ++ [q] }
    match net q with
    | .ok raw =>
      let step := addPatents seen (raw.map mkPatentEntry)
      let rest := patentsLoop net qs step.1 { acc1 with patents := acc1.patents ++ step.2 }
      (rest.1, rest.2 + 1)
    | .error e =>
      let rest := patentsLoop net qs seen
        { acc1 with errors := acc1.errors ++
            ["PatentsView search failed for '" ++ q ++ "': " ++ e] }
      (rest.1, rest.2 + 1)

/-- `fetch_all_patents` from `fetch_patents.py`.  `envPatentsViewKey` models
`os.environ.get("PATENTSVIEW_API_KEY")` (`none` = unset; Python's `if not
api_key` also treats the empty string as missing). -/
def fetch_all_patents (envPatentsViewKey : Option String) (rsid gene_symbol gene_name : String)
    (net : String → Except String (List RawPatent)) : PatentsResult × Nat :=
  let result : PatentsResult :=
    { rsid := rsid, gene_symbol := gene_symbol, patents := [],
      search_queries_used := [], errors := [] }
  if envPatentsViewKey.getD "" = "" then
    ({ result with errors := result.errors ++
        ["PATENTSVIEW_API_KEY not set. Get a free key at https://patentsview.org/apis/keyrequest"] }, 0)
  else
    patentsLoop net (patentQueries gene_symbol gene_name) [] result

end Patents

/-! ## `fetch_biogrid.py`  (claims C3, C6) -/

namespace Biogrid

/-- One interaction object from the BioGRID JSON response (`data.items()`
values); fields read with `.get(..., "")` are `Option String` here,
`SCORE` is read with default `None`. -/
structure BiogridRaw where
  OFFICIAL_SYMBOL_A : Option String
  OFFICIAL_SYMBOL_B : Option String
  EXPERIMENTAL_SYSTEM : Option String
  THROUGHPUT : Option String
  PUBMED_ID : Option String
  ORGANISM_A : Option String
  ORGANISM_B : Option String
  SCORE : Option String
deriving DecidableEq, Repr

/-- A normalized BioGRID interaction record. -/
structure BiogridInteraction where
  biogrid_id : String
  gene_a : String
  gene_b : String
  experimental_system : String
  throughput : String
  pubmed_id : String
  organism_a : String
  organism_b : String
  score : Option String
deriving DecidableEq, Repr

/-- The result shape of `fetch_biogrid_interactions`. -/
structure BiogridResult where
  database : String
  gene_symbol : String
  interactions : List BiogridInteraction
  total_count : Nat
  errors : List String
deriving DecidableEq, Repr

/-- The per-interaction normalization step (loop body over `data.items()`). -/
def mkBiogridInteraction (interaction_id : String) (i : BiogridRaw) : BiogridInteraction :=
  { biogrid_id := interaction_id
    gene_a := i.OFFICIAL_SYMBOL_A.getD ""
    gene_b := i.OFFICIAL_SYMBOL_B.getD ""
    experimental_system := i.EXPERIMENTAL_SYSTEM.getD ""
    throughput := i.THROUGHPUT.getD ""
    pubmed_id := i.PUBMED_ID.getD ""
    organism_a := i.ORGANISM_A.getD ""
    organism_b := i.ORGANISM_B.getD ""
    score := i.SCORE }

/-- The retry loop of `fetch_biogrid_interactions` (`for attempt in
range(max_retries + 1)`), also counting HTTP requests.  The oracle gives, per
attempt, the parsed response items or the message of a raised
`requests.RequestException`.  The fuel argument is the number of remaining
attempts; the fuel-0 value corresponds to the unreachable trailing
`return result`. -/
def biogridAttempts (net : Nat → Except String (List (String × BiogridRaw)))
    (base : BiogridResult) : Nat → Nat → BiogridResult × Nat
  | _, 0 => (base, 0)
  | attempt, fuel + 1 =>
    match net attempt with
    | .ok data =>
      ({ base with
          total_count := data.length,
          interactions := base.interactions ++ data.map fun p => mkBiogridInteraction p.1 p.2 }, 1)
    | .error e =>
      match fuel with
      | f + 1 =>
        let rest := biogridAttempts net base (attempt + 1) (f + 1)
        (rest.1, rest.2 + 1)
      | 0 => ({ base with errors := base.errors ++ ["BioGRID API request failed: " ++ e] }, 1)

/-- `fetch_biogrid_interactions` from `fetch_biogrid.py`.  `envBiogridKey`
models `os.environ.get("BIOGRID_API_KEY")`; the `max_results` request
parameter only shapes the server's response and is carried by the oracle. -/
def fetch_biogrid_interactions (envBiogridKey : Option String) (gene_symbol : String)
    (net : Nat → Except String (List (String × BiogridRaw)))
    (max_retries : Nat := 1) : BiogridResult × Nat :=
  let result : BiogridResult :=
    { database := "BioGRID", gene_symbol := gene_symbol, interactions := [],
      total_count := 0, errors := [] }
  if envBiogridKey.getD "" = "" then
    ({ result with errors := result.errors ++
        ["BIOGRID_API_KEY not set. Get a free key at https://wiki.thebiogrid.org/doku.php/biogridrest"] }, 0)
  else
    biogridAttempts net result 0 (max_retries + 1)

end Biogrid

/-! ## A model of Python `float` values and of `float(str)` parsing

The scripts never compute with the parsed floats, they only store them, so the
value is modelled exactly: finite floats as rationals, plus infinities and
NaN.  `pyFloat?` models CPython's `float(s)` on strings: optional sign,
`inf`/`infinity`/`nan` (case-insensitively), or a decimal literal with
optional fraction, exponent, and underscore digit-group separators;
`none` models a raised `ValueError`. -/

/-- A Python `float` value. -/
inductive PyFloat where
  | num (q : ℚ)
  | inf (pos : Bool)
  | nan
deriving DecidableEq, Repr

/-- Consume a maximal digit group (digits with single embedded underscores),
accumulating its value and digit count; returns the unconsumed rest. -/
def digitGroup : Nat → Nat → List Char → Nat × Nat × List Char
  | acc, len, [] => (acc, len, [])
  | acc, len, [d] =>
    if d.isDigit then (acc * 10 + (d.toNat - 48), len + 1, [])
    else (acc, len, [d])
  | acc, len, d :: e :: es =>
    if d.isDigit then digitGroup (acc * 10 + (d.toNat - 48)) (len + 1) (e :: es)
    else if d = '_' ∧ e.isDigit then digitGroup (acc * 10 + (e.toNat - 48)) (len + 1) es
    else (acc, len, d :: e :: es)

/-- A digit group must start with a digit (an underscore may not lead). -/
def parseDigitPart (cs : List Char) : Option (Nat × Nat × List Char) :=
  match cs with
  | c :: rest => if c.isDigit then some (digitGroup (c.toNat - 48) 1 rest) else none
  | [] => none

/-- Parse the optional exponent suffix (input is already lowercased) and
require the input to be exhausted. -/
def parseExpTail (q : ℚ) : List Char → Option ℚ
  | [] => some q
  | e :: rest =>
    if e = 'e' then
      let signed : Bool × List Char :=
        match rest with
        | '+' :: r => (true, r)
        | '-' :: r => (false, r)
        | r => (true, r)
      match parseDigitPart signed.2 with
      | some (ex, _, []) => some (if signed.1 then q * 10 ^ ex else q / 10 ^ ex)
      | _ => none
    else none

/-- Parse an unsigned decimal literal: `digits[.digits][e[±]digits]`,
`digits.`, or `.digits` forms. -/
def parseFloatBody (cs : List Char) : Option ℚ :=
  match parseDigitPart cs with
  | some (ip, _, rest) =>
    match rest with
    | '.' :: rest2 =>
      match parseDigitPart rest2 with
      | some (fp, fl, rest3) => parseExpTail ((ip : ℚ) + (fp : ℚ) / 10 ^ fl) rest3
      | none => parseExpTail (ip : ℚ) rest2
    | _ => parseExpTail (ip : ℚ) rest
  | none =>
    match cs with
    | '.' :: rest2 =>
      match parseDigitPart rest2 with
      | some (fp, fl, rest3) => parseExpTail ((fp : ℚ) / 10 ^ fl) rest3
      | none => none
    | _ => none

/-- Model of Python's `float(s)` on a string: `some` the parsed value, `none`
a raised `ValueError`. -/
def pyFloat? (s : String) : Option PyFloat :=
  let t := (strLower (pyStrip s)).data
  let signed : Bool × List Char :=
    match t with
    | '+' :: r => (true, r)
    | '-' :: r => (false, r)
    | r => (true, r)
  if signed.2 = "inf".data ∨ signed.2 = "infinity".data then some (.inf signed.1)
  else if signed.2 = "nan".data then some .nan
  else
    match parseFloatBody signed.2 with
    | some q => some (.num (if signed.1 then q else -q))
    | none => none

/-! ## `fetch_bioplex.py`  (claims C5, C6, C10) -/

namespace Bioplex

/-- One row of the cached BioPlex TSV file as produced by `csv.DictReader`;
`none` models a column absent from the header (`row.get(..., default)` then
returns the default). -/
structure BioplexRow where
  GeneA : Option String
  GeneB : Option String
  SymbolA : Option String
  SymbolB : Option String
  UniprotA : Option String
  UniprotB : Option String
  pW : Option String
  pNI : Option String
  pInt : Option String
deriving DecidableEq, Repr

/-- `float(row.get(col, 0))` guarded by `try/except (ValueError, TypeError)`:
an absent column gives `float(0) = 0.0`, a malformed string gives `None`. -/
def bioplexFloatField (field : Option String) : Option PyFloat :=
  match field with
  | none => some (PyFloat.num 0)
  | some s => pyFloat? s

/-- The row-matching test of `fetch_bioplex_interactions`:
`row.get("SymbolA", "").strip().upper() == gene_upper` or the same for
`SymbolB`. -/
def bioplexMatch (gene_upper : String) (row : BioplexRow) : Bool :=
  strUpper (pyStrip (row.SymbolA.getD "")) == gene_upper ||
  strUpper (pyStrip (row.SymbolB.getD "")) == gene_upper

/-- A normalized BioPlex interaction record. -/
structure BioplexInteraction where
  gene_a : String
  gene_b : String
  symbol_a : String
  symbol_b : String
  uniprot_a : String
  uniprot_b : String
  p_wrong : Option PyFloat
  p_no_interaction : Option PyFloat
  p_interaction : Option PyFloat
deriving DecidableEq, Repr

/-- The per-row normalization step (loop body over `matches[:max_results]`). -/
def mkBioplexInteraction (row : BioplexRow) : BioplexInteraction :=
  { gene_a := row.GeneA.getD ""
    gene_b := row.GeneB.getD ""
    symbol_a := row.SymbolA.getD ""
    symbol_b := row.SymbolB.getD ""
    uniprot_a := row.UniprotA.getD ""
    uniprot_b := row.UniprotB.getD ""
    p_wrong := bioplexFloatField row.pW
    p_no_interaction := bioplexFloatField row.pNI
    p_interaction := bioplexFloatField row.pInt }

/-- The result shape of `fetch_bioplex_interactions`. -/
structure BioplexResult where
  database : String
  gene_symbol : String
  interactions : List BioplexInteraction
  total_count : Nat
  errors : List String
deriving DecidableEq, Repr

/-- Outcome of obtaining and reading the cached BioPlex file: its parsed rows,
a raised `requests.RequestException` during download, or any other exception
while reading/parsing (the function's two `except` arms). -/
inductive BioplexFile where
  | rows (rs : List BioplexRow)
  | downloadErr (msg : String)
  | queryErr (msg : String)
deriving DecidableEq, Repr

/-- A concrete matching row (symbol `a`), used to exhibit a `total_count`
larger than the returned interaction list. -/
def sampleRowA : BioplexRow :=
  { GeneA := none, GeneB := none, SymbolA := some "a", SymbolB := none,
    UniprotA := none, UniprotB := none, pW := none, pNI := none, pInt := none }

/-- A concrete row whose three numeric columns are all malformed. -/
def sampleMalformedRow : BioplexRow :=
  { GeneA := none, GeneB := none, SymbolA := none, SymbolB := none,
    UniprotA := none, UniprotB := none,
    pW := some "abc", pNI := some "1.2.3", pInt := some "--5" }

/-- `fetch_bioplex_interactions` from `fetch_bioplex.py`. -/
def fetch_bioplex_interactions (gene_symbol : String) (file : BioplexFile)
    (max_results : Nat := 50) : BioplexResult :=
  let result : BioplexResult :=
    { database := "BioPlex", gene_symbol := gene_symbol, interactions := [],
      total_count := 0, errors := [] }
  match file with
  | .downloadErr e =>
    { result with errors := result.errors ++ ["Failed to download BioPlex data: " ++ e] }
  | .queryErr e =>
    { result with errors := result.errors ++ ["BioPlex query failed: " ++ e] }
  | .rows rows =>
    let gene_upper := strUpper gene_symbol
    let matchRows := rows.filter (bioplexMatch gene_upper)
    { result with
        total_count := matchRows.length,
        interactions := result.interactions ++ (matchRows.take max_results).map mkBioplexInteraction }

end Bioplex

/-! ## `fetch_intact.py`  (claims C5, C6)

The MITAB response text is supplied by a per-attempt oracle.  The name
extraction `part.split("(")[0].split(":")[1]` can raise an uncaught
`IndexError` (when a part contains `":"` only after `"("`), which the
function does not catch, so parsing returns `Except`: `.error` models an
exception escaping `fetch_intact_interactions`. -/

namespace Intact

/-- The worker for `strReplace`: replace every occurrence of the nonempty
`old` by `new`.  Structural recursion on fuel (kept at least `cs.length`, so
the fuel-0 case is unreachable). -/
def replaceCharsGo (old new : List Char) : Nat → List Char → List Char
  | 0, cs => cs
  | fuel + 1, cs =>
    match cs with
    | [] => []
    | c :: cs' =>
      if charsStartWith old cs ∧ old ≠ [] then
        new ++ replaceCharsGo old new fuel (List.drop old.length cs)
      else c :: replaceCharsGo old new fuel cs'

/-- Python's `s.replace(old, new)` for nonempty `old` (an empty `old` falls
through to a copy here). -/
def strReplace (s old new : String) : String :=
  ⟨replaceCharsGo old.data new.data s.data.length s.data⟩

/-- Index of the first occurrence of `c` in `cs` (defined when `c` occurs,
as guarded in the source by `in` checks). -/
def firstIndexOf (cs : List Char) (c : Char) : Nat :=
  match cs with
  | [] => 0
  | d :: ds => if d == c then 0 else firstIndexOf ds c + 1

/-- `_extract_id` from `fetch_intact.py`. -/
def _extract_id (id_field : String) : String :=
  if strContains id_field ":" then
    ((strSplitOn ((strSplitOn id_field ":").getD 1 "") "|").headD "")
  else (strSplitOn id_field "|").headD ""

/-- `_extract_psi_value` from `fetch_intact.py`:
`field[field.index("(") + 1 : field.rindex(")")]` when both brackets occur. -/
def _extract_psi_value (field : String) : String :=
  if strContains field "(" ∧ strContains field ")" then
    let start := firstIndexOf field.data '(' + 1
    let stop := field.data.length - 1 - firstIndexOf field.data.reverse ')'
    ⟨(field.data.drop start).take (stop - start)⟩
  else field

/-- The per-part name extraction inside `_extract_name`:
`part.split("(")[0].split(":")[1] if ":" in part else part.split("(")[0]`,
then `.strip()`.  `.error` models the uncaught `IndexError` when the part
contains `":"` but its pre-`"("` prefix does not. -/
def nameFromPart (part : String) : Except String String :=
  if strContains part ":" then
    match (strSplitOn ((strSplitOn part "(").headD "") ":").get? 1 with
    | some name => .ok (pyStrip name)
    | none => .error "list index out of range"
  else .ok (pyStrip ((strSplitOn part "(").headD ""))

/-- `_extract_name` from `fetch_intact.py`: first `display_short` part, else
first `gene name` part (case-insensitively), else `""`. -/
def _extract_name (alias_field : String) : Except String String :=
  match (strSplitOn alias_field "|").find? (fun part => strContains part "display_short") with
  | some part => nameFromPart part
  | none =>
    match (strSplitOn alias_field "|").find?
        (fun part => strContains (strLower part) "gene name") with
    | some part => nameFromPart part
    | none => .ok ""

/-- PubMed-ID extraction from the MITAB publication field: first `|`-part
containing `pubmed:`, with `pubmed:` removed and stripped. -/
def mitabPmid (publication : String) : String :=
  match (strSplitOn publication "|").find? (fun part => strContains part "pubmed:") with
  | some part => pyStrip (strReplace part "pubmed:" "")
  | none => ""

/-- One step of the confidence-score scan: for a part containing
`intact-miscore:`, `try: score = float(part.split(":")[1]) except
(ValueError, IndexError): pass` — a failed parse keeps the previous value. -/
def intactScoreStep (score : Option PyFloat) (part : String) : Option PyFloat :=
  if strContains part "intact-miscore:" then
    match (strSplitOn part ":").get? 1 with
    | some s =>
      match pyFloat? s with
      | some v => some v
      | none => score
    | none => score
  else score

/-- The confidence-score extraction of `fetch_intact_interactions`: scan the
`|`-parts of the (truthy) confidence field. -/
def intactScore (confidence : String) : Option PyFloat :=
  if confidence = "" then none
  else (strSplitOn confidence "|").foldl intactScoreStep none

/-- A normalized IntAct interaction record. -/
structure IntactInteraction where
  interactors : List String
  interaction_type : String
  detection_method : String
  publication : String
  confidence_score : Option PyFloat
deriving DecidableEq, Repr

/-- The per-line parsing step of `fetch_intact_interactions`: `ok none` is a
skipped line (blank, or fewer than 15 tab-separated fields), `ok (some _)` a
normalized record, `error` an uncaught exception from name extraction. -/
def parseMitabLine (line : String) : Except String (Option IntactInteraction) :=
  if pyStrip line = "" then .ok none
  else
    let fields := strSplitOn line "\t"
    if fields.length < 15 then .ok none
    else
      let confidence := if fields.length > 14 then fields.getD 14 "" else ""
      match _extract_name (fields.getD 4 "") with
      | .error e => .error e
      | .ok n_a =>
        match _extract_name (fields.getD 5 "") with
        | .error e => .error e
        | .ok n_b =>
          let name_a := if n_a = "" then _extract_id (fields.getD 0 "") else n_a
          let name_b := if n_b = "" then _extract_id (fields.getD 1 "") else n_b
          .ok (some
            { interactors := [name_a, name_b]
              interaction_type := _extract_psi_value (fields.getD 11 "")
              detection_method := _extract_psi_value (fields.getD 6 "")
              publication := mitabPmid (fields.getD 8 "")
              confidence_score := intactScore confidence })

/-- A concrete 15-field MITAB line whose confidence field carries a malformed
`intact-miscore` value. -/
def sampleMitabLine : String :=
  "a\tb\tc\td\te\tf\tg\th\ti\tj\tk\tl\tm\tn\tintact-miscore:xyz"

/-- The record `parseMitabLine` produces from `sampleMitabLine`. -/
def sampleMitabRec : IntactInteraction :=
  { interactors := ["a", "b"], interaction_type := "l", detection_method := "g",
    publication := "", confidence_score := none }

/-- The result shape of `fetch_intact_interactions`. -/
structure IntactResult where
  database : String
  gene_symbol : String
  interactions : List IntactInteraction
  total_count : Nat
  errors : List String
deriving DecidableEq, Repr

/-- The retry loop of `fetch_intact_interactions`; the oracle gives each
attempt's response text or the message of a raised
`requests.RequestException`.  Fuel is the number of remaining attempts; the
fuel-0 value is the unreachable trailing `return result`. -/
def intactAttempts (net : Nat → Except String String) (base : IntactResult) :
    Nat → Nat → Except String IntactResult
  | _, 0 => .ok base
  | attempt, fuel + 1 =>
    match net attempt with
    | .error e =>
      match fuel with
      | f + 1 => intactAttempts net base (attempt + 1) (f + 1)
      | 0 => .ok { base with errors := base.errors ++ ["IntAct PSICQUIC request failed: " ++ e] }
    | .ok text =>
      match (strSplitOn (pyStrip text) "\n").mapM parseMitabLine with
      | .error e => .error e
      | .ok items =>
        let inters := items.filterMap id
        .ok { base with
                interactions := base.interactions ++ inters,
                total_count := (base.interactions ++ inters).length }

/-- `fetch_intact_interactions` from `fetch_intact.py`. -/
def fetch_intact_interactions (gene_symbol : String) (net : Nat → Except String String)
    (max_retries : Nat := 1) : Except String IntactResult :=
  let result : IntactResult :=
    { database := "IntAct", gene_symbol := gene_symbol, interactions := [],
      total_count := 0, errors := [] }
  intactAttempts net result 0 (max_retries + 1)

end Intact

/-- A minimal JSON value, used where the scripts handle documents
generically (`generate_report.py`, `resolve_variant.py`). -/
inductive Json where
  | null
  | bool (b : Bool)
  | str (s : String)
  | num (q : ℚ)
  | arr (xs : List Json)
  | obj (fields : List (String × Json))

/-! ## `generate_report.py`  (claims C2, C8) -/

namespace Report

/-- Reading a category file: present with parseable JSON, absent
(`FileNotFoundError`), or present but malformed (`json.JSONDecodeError`,
with the decoder's message). -/
inductive FileRead where
  | valid (doc : Json)
  | missing
  | invalid (msg : String)

/-- `load_json_file` from `generate_report.py`; the filesystem is an oracle
from paths to `FileRead`. -/
def load_json_file (fs : String → FileRead) (filepath : String) : Json :=
  match fs filepath with
  | .valid doc => doc
  | .missing =>
    .obj [("_unavailable", .bool true),
          ("errors", .arr [.str ("File not found: " ++ filepath)])]
  | .invalid msg =>
    .obj [("_unavailable", .bool true),
          ("errors", .arr [.str ("Invalid JSON in " ++ filepath ++ ": " ++ msg)])]

/-- The six documents `generate_report` loads (lines 30–35), after the
`rsid.lower().strip()` normalization; `reports_dir / name` is modelled as
`reports_dir ++ "/" ++ name`. -/
structure LoadedDocs where
  variant_info : Json
  literature : Json
  patents : Json
  clinical : Json
  protein : Json
  drug_targets : Json

/-- The file-loading prefix of `generate_report`: each category is loaded
independently from its own `{rsid}_{category}.json` file. -/
def loadCategoryFiles (fs : String → FileRead) (rsid reports_dir : String) : LoadedDocs :=
  let rsid := pyStrip (strLower rsid)
  { variant_info := load_json_file fs (reports_dir ++ "/" ++ rsid ++ "_variant.json")
    literature := load_json_file fs (reports_dir ++ "/" ++ rsid ++ "_literature.json")
    patents := load_json_file fs (reports_dir ++ "/" ++ rsid ++ "_patents.json")
    clinical := load_json_file fs (reports_dir ++ "/" ++ rsid ++ "_clinical.json")
    protein := load_json_file fs (reports_dir ++ "/" ++ rsid ++ "_protein.json")
    drug_targets := load_json_file fs (reports_dir ++ "/" ++ rsid ++ "_drug_targets.json") }

/-! ### `_collect_references`

The reference collector reads typed fields out of the literature and protein
documents, so those two inputs are modelled with the record shapes it
accesses. -/

/-- A PubMed article record from the literature document. -/
structure PubmedArticle where
  pmid : String
  title : String
  authors : String
  journal : String
  year : String
deriving DecidableEq, Repr

/-- A Google Scholar article record from the literature document. -/
structure ScholarArticle where
  title : String
  url : String
  authors : String
  year : String
deriving DecidableEq, Repr

/-- The two article lists of the literature document. -/
structure Literature where
  pubmed_articles : List PubmedArticle
  scholar_articles : List ScholarArticle
deriving DecidableEq, Repr

/-- An interaction record as read by the reference collector:
`interaction.get("publication", interaction.get("pubmed_id", ""))` (the
source's `str(...)` is the identity here since the fields are modelled as
the strings they print as). -/
structure DbInteraction where
  publication : Option String
  pubmed_id : Option String
deriving DecidableEq, Repr

/-- The PMID key of an interaction record. -/
def DbInteraction.pmidKey (i : DbInteraction) : String :=
  i.publication.getD (i.pubmed_id.getD "")

/-- The `intact`/`biogrid` interaction lists of the protein document. -/
structure ProteinDoc where
  intact : List DbInteraction
  biogrid : List DbInteraction
deriving DecidableEq, Repr

/-- A collected reference entry. -/
structure RefEntry where
  source : String
  id : String
  title : String
  authors : String
  journal : String
  year : String
  url : String
deriving DecidableEq, Repr

/-- The reference entry built from a PubMed article. -/
def pubmedRef (a : PubmedArticle) : RefEntry :=
  { source := "PubMed", id := a.pmid, title := a.title, authors := a.authors,
    journal := a.journal, year := a.year,
    url := "https://pubmed.ncbi.nlm.nih.gov/" ++ a.pmid ++ "/" }

/-- The dedup key of a Scholar article: `url or title`. -/
def scholarKey (a : ScholarArticle) : String :=
  if a.url = "" then a.title else a.url

/-- The reference entry built from a Scholar article. -/
def scholarRef (a : ScholarArticle) : RefEntry :=
  { source := "Google Scholar", id := "", title := a.title, authors := a.authors,
    journal := "", year := a.year, url := a.url }

/-- The reference entry built from an interaction-database record
(`db_name.capitalize()` as source). -/
def dbRef (source : String) (i : DbInteraction) : RefEntry :=
  { source := source, id := i.pmidKey, title := "", authors := "",
    journal := "", year := "",
    url := "https://pubmed.ncbi.nlm.nih.gov/" ++ i.pmidKey ++ "/" }

/-- The candidate (key, entry) pairs of `_collect_references` in processing
order: PubMed articles, Scholar articles, then `intact` and `biogrid`
interactions.  Items with a falsy key are skipped (`if key and key not in
seen_ids`). -/
def refCandidates (literature : Literature) (protein : ProteinDoc) :
    List (String × RefEntry) :=
  (literature.pubmed_articles.filterMap fun a =>
    if a.pmid = "" then none else some (a.pmid, pubmedRef a))
  ++ (literature.scholar_articles.filterMap fun a =>
    if scholarKey a = "" then none else some (scholarKey a, scholarRef a))
  ++ (protein.intact.filterMap fun i =>
    if i.pmidKey = "" then none else some (i.pmidKey, dbRef "Intact" i))
  ++ (protein.biogrid.filterMap fun i =>
    if i.pmidKey = "" then none else some (i.pmidKey, dbRef "Biogrid" i))

/-- The shared `seen_ids` dedup of `_collect_references`: keep a candidate
only when its key is unseen, first occurrence wins. -/
def dedupPairs : List (String × RefEntry) → List String → List (String × RefEntry)
  | [], _ => []
  | (k, r) :: rest, seen =>
    if seen.contains k then dedupPairs rest seen
    else (k, r) :: dedupPairs rest (k :: seen)

/-- `_collect_references` from `generate_report.py` (the returned `refs`
list). -/
def _collect_references (literature : Literature) (protein : ProteinDoc) :
    List RefEntry :=
  (dedupPairs (refCandidates literature protein) []).map Prod.snd

/-- A concrete PubMed article (PMID 123). -/
def sampleArticle : PubmedArticle :=
  { pmid := "123", title := "T", authors := "A", journal := "J", year := "2020" }

/-- A concrete literature document holding only `sampleArticle`. -/
def sampleLiterature : Literature :=
  { pubmed_articles := [sampleArticle], scholar_articles := [] }

/-- A concrete IntAct interaction citing PMID 123. -/
def sampleDbInteraction : DbInteraction :=
  { publication := some "123", pubmed_id := none }

/-- A concrete protein document whose IntAct record cites PMID 123. -/
def sampleProtein : ProteinDoc :=
  { intact := [sampleDbInteraction], biogrid := [] }

/-- A concrete filesystem: the literature file is missing, the patents file is
malformed, every other file reads as JSON `null`. -/
def sampleFs : String → FileRead := fun p =>
  if p = "r/rs1_literature.json" then .missing
  else if p = "r/rs1_patents.json" then .invalid "Expecting value"
  else .valid .null

end Report

/-- The outcome of one `requests.get`: a response with its HTTP status and
parsed body, or a raised `requests.RequestException` with its message. -/
inductive HttpOutcome (α : Type) where
  | resp (status : Nat) (body : α)
  | exn (msg : String)

/-- An element of a sub-fetcher's returned list, as the clinical orchestrator
sees it: a real record or an `{"error": msg}` marker dict. -/
inductive SourceItem (α : Type) where
  | entry (e : α)
  | error (msg : String)
deriving DecidableEq, Repr

/-- The `if "error" in entry` separation loop of `fetch_all_clinical`,
splitting a sub-fetcher's list into its records and its error messages (in
order). -/
def splitSourceItems {α : Type} : List (SourceItem α) → List α × List String
  | [] => ([], [])
  | .entry e :: rest =>
    let p := splitSourceItems rest
    (e :: p.1, p.2)
  | .error m :: rest =>
    let p := splitSourceItems rest
    (p.1, m :: p.2)

/-- The error strings a sub-fetcher call contributes to the orchestrator's
top-level list: its in-band error markers when it returns, or the single
`prefix + message` string when it raises. -/
def sourceErrors {α : Type} (pre : String) : Except String (List (SourceItem α)) → List String
  | .ok items => (splitSourceItems items).2
  | .error e => [pre ++ e]

/-- The records a sub-fetcher call contributes: its entries when it returns,
nothing when it raises. -/
def sourceEntries {α : Type} : Except String (List (SourceItem α)) → List α
  | .ok items => (splitSourceItems items).1
  | .error _ => []

/-! ## `fetch_clinical.py`  (claims C4, C6) -/

namespace Clinical

/-- The `x = item.get(key, ""); if x: break` scan used for traits and risk
alleles: returns the first truthy value, else the last assigned one (the
initial value when the list is empty). -/
def scanFirstTruthy (init : String) : List (Option String) → String
  | [] => init
  | v :: rest =>
    let x := v.getD ""
    if x ≠ "" then x else scanFirstTruthy x rest

/-- One element of an association's `loci` array (its
`strongestRiskAlleles[*].riskAlleleName` values; `none` a missing name). -/
structure GwasLocus where
  strongestRiskAlleles : List (Option String)
deriving DecidableEq, Repr

/-- One association object of the GWAS Catalog response.  JSON numbers
(p-values, betas, odds ratios) are modelled as the strings they print as,
since the code only formats them. -/
structure RawGwasAssoc where
  efoTraits : List (Option String)
  pvalue : Option String
  pvalueMantissa : Option String
  pvalueExponent : Option String
  betaNum : Option String
  betaUnit : Option String
  betaDirection : Option String
  orPerCopyNum : Option String
  range : Option String
  loci : Option (List GwasLocus)
  studyHref : Option String
deriving DecidableEq, Repr

/-- A normalized GWAS association entry. -/
structure GwasEntry where
  trait : String
  p_value : String
  effect_size : String
  risk_allele : String
  pmid : String
deriving DecidableEq, Repr

/-- The p-value: `f"{mantissa}e{exponent}"` when both are present, else the
raw `pvalue` field. -/
def gwasPValue (assoc : RawGwasAssoc) : String :=
  match assoc.pvalueMantissa, assoc.pvalueExponent with
  | some m, some e => m ++ "e" ++ e
  | _, _ => assoc.pvalue.getD ""

/-- The effect-size string: beta with optional unit and direction, else odds
ratio with optional confidence range, else empty. -/
def gwasEffectSize (assoc : RawGwasAssoc) : String :=
  match assoc.betaNum with
  | some b =>
    let s := "beta=" ++ b
    let s := if assoc.betaUnit.getD "" ≠ "" then s ++ " " ++ assoc.betaUnit.getD "" else s
    if assoc.betaDirection.getD "" ≠ "" then s ++ " (" ++ assoc.betaDirection.getD "" ++ ")"
    else s
  | none =>
    match assoc.orPerCopyNum with
    | some o =>
      let s := "OR=" ++ o
      if assoc.range.getD "" ≠ "" then s ++ " " ++ assoc.range.getD "" else s
    | none => ""

/-- The risk-allele scan: over `assoc.get("loci", [{}])`, the inner
first-truthy scan per locus (the inner `break` does not break the outer
loop, so a later locus with a nonempty allele list reassigns the value). -/
def gwasRiskAllele (assoc : RawGwasAssoc) : String :=
  (assoc.loci.getD [{ strongestRiskAlleles := [] }]).foldl
    (fun ra snp => scanFirstTruthy ra snp.strongestRiskAlleles) ""

/-- `_fetch_gwas_study_pmids` from `fetch_clinical.py`: the per-URL lookup is
an oracle `studyNet` (`some pmid` a successful fetch with a non-null
`publicationInfo.pubmedId`; `none` a silently skipped failure or missing
id). -/
def _fetch_gwas_study_pmids (studyNet : String → Option String) (urls : List String) :
    List (String × String) :=
  urls.filterMap fun url =>
    if url = "" then none
    else (studyNet url).map fun pmid => (url, pmid)

/-- The first-pass parse of one association (the entry with `pmid` not yet
filled, paired with its `_study_link`). -/
def parseGwasAssoc (assoc : RawGwasAssoc) : GwasEntry × String :=
  ({ trait := scanFirstTruthy "" assoc.efoTraits
     p_value := gwasPValue assoc
     effect_size := gwasEffectSize assoc
     risk_allele := gwasRiskAllele assoc
     pmid := "" }, assoc.studyHref.getD "")

/-- Stand-in for the `requests` library's `HTTPError` message raised by
`raise_for_status()` on a 4xx/5xx status. -/
def httpErrorText (status : Nat) : String := "HTTP " ++ toString status

/-- `fetch_gwas_associations` from `fetch_clinical.py`.  A 404 returns the
empty list before `raise_for_status()`; any other 4xx/5xx raises and is
caught as a `RequestException`, appending one error item.  (The source
deduplicates study URLs through a `set` before the PMID lookups; the lookup
map is unaffected by that dedup, so the candidate URL list is used
directly.) -/
def fetch_gwas_associations (rsid : String)
    (net : HttpOutcome (List RawGwasAssoc)) (studyNet : String → Option String) :
    List (SourceItem GwasEntry) :=
  match net with
  | .exn e => [.error ("GWAS Catalog search failed: " ++ e)]
  | .resp status body =>
    if status = 404 then []
    else if 400 ≤ status ∧ status < 600 then
      [.error ("GWAS Catalog search failed: " ++ httpErrorText status)]
    else
      let parsed := body.map parseGwasAssoc
      let study_urls := (body.map fun assoc => assoc.studyHref.getD "").filter (· ≠ "")
      let pmid_map := _fetch_gwas_study_pmids studyNet study_urls
      parsed.map fun pe =>
        .entry { pe.1 with pmid := (pmid_map.lookup pe.2).getD "" }

/-- A normalized ClinVar entry. -/
structure ClinvarEntry where
  variant_id : String
  title : String
  clinical_significance : String
  conditions : String
  review_status : String
  last_evaluated : String
deriving DecidableEq, Repr

/-- A normalized clinical-trial entry. -/
structure TrialEntry where
  nct_id : String
  title : String
  phase : String
  status : String
  sponsor : String
  conditions : String
  interventions : String
deriving DecidableEq, Repr

/-- The result shape of `fetch_all_clinical`. -/
structure ClinicalResult where
  rsid : String
  gene_symbol : String
  clinvar_entries : List ClinvarEntry
  clinical_trials : List TrialEntry
  gwas_associations : List GwasEntry
  errors : List String
deriving DecidableEq, Repr

/-- `fetch_all_clinical` from `fetch_clinical.py`.  Each sub-fetcher call is
an outcome parameter: `.ok items` its returned list (records plus in-band
error markers), `.error e` an unexpected exception caught by the
orchestrator's `except Exception` arm.  (The inter-call `time.sleep`s do not
affect the result.) -/
def fetch_all_clinical (rsid gene_symbol : String)
    (clinvarOutcome : Except String (List (SourceItem ClinvarEntry)))
    (trialsOutcome : Except String (List (SourceItem TrialEntry)))
    (gwasOutcome : Except String (List (SourceItem GwasEntry))) : ClinicalResult :=
  let r : ClinicalResult :=
    { rsid := rsid, gene_symbol := gene_symbol, clinvar_entries := [],
      clinical_trials := [], gwas_associations := [], errors := [] }
  let r := match clinvarOutcome with
    | .ok items =>
      let p := splitSourceItems items
      { r with clinvar_entries := r.clinvar_entries ++ p.1, errors := r.errors ++ p.2 }
    | .error e => { r with errors := r.errors ++ ["ClinVar failed: " ++ e] }
  let r := match trialsOutcome with
    | .ok items =>
      let p := splitSourceItems items
      { r with clinical_trials := r.clinical_trials ++ p.1, errors := r.errors ++ p.2 }
    | .error e => { r with errors := r.errors ++ ["ClinicalTrials.gov failed: " ++ e] }
  match gwasOutcome with
  | .ok items =>
    let p := splitSourceItems items
    { r with gwas_associations := r.gwas_associations ++ p.1, errors := r.errors ++ p.2 }
  | .error e => { r with errors := r.errors ++ ["GWAS Catalog failed: " ++ e] }

end Clinical

/-! ## `fetch_protein.py`  (claim C6) -/

namespace Protein

/-- A normalized STRING-db interaction (JSON sub-scores modelled as the
strings they print as). -/
structure StringInteraction where
  partner : String
  preferredName : String
  protein_a : String
  protein_b : String
  score : String
  combined_score : String
  sources : String
  nscore : String
  fscore : String
  pscore : String
  ascore : String
  escore : String
  dscore : String
  tscore : String
deriving DecidableEq, Repr

/-- The result shape of `fetch_string_interactions`. -/
structure StringResult where
  interactions : List StringInteraction
  errors : List String
deriving DecidableEq, Repr

/-- The result shape of `fetch_hpa_data`. -/
structure HpaResult where
  protein_class : String
  subcellular_location : String
  tissue_expression : String
  rna_expression : String
  errors : List String
deriving DecidableEq, Repr

/-- The result shape of `fetch_all_protein`; `none` in a sub-source slot is
the initial `{}` placeholder left when that fetcher raised. -/
structure ProteinResult where
  rsid : String
  gene_symbol : String
  string_interactions : Option StringResult
  hpa_expression : Option HpaResult
  intact : Option Intact.IntactResult
  bioplex : Option Bioplex.BioplexResult
  biogrid : Option Biogrid.BiogridResult
  errors : List String
deriving DecidableEq, Repr

/-- The error strings one sub-fetcher call contributes to the orchestrator's
top-level list: the sub-result's own `errors` when it returns, the single
`prefix + message` string when it raises. -/
def outcomeErrors {α : Type} (pre : String) (errsOf : α → List String) :
    Except String α → List String
  | .ok d => errsOf d
  | .error e => [pre ++ e]

/-- `fetch_all_protein` from `fetch_protein.py`.  Each sub-fetcher call is an
outcome parameter: `.ok d` its returned document, `.error e` an unexpected
exception caught by the orchestrator's `except Exception` arm. -/
def fetch_all_protein (rsid gene_symbol : String)
    (oString : Except String StringResult) (oHpa : Except String HpaResult)
    (oIntact : Except String Intact.IntactResult)
    (oBioplex : Except String Bioplex.BioplexResult)
    (oBiogrid : Except String Biogrid.BiogridResult) : ProteinResult :=
  let r : ProteinResult :=
    { rsid := rsid, gene_symbol := gene_symbol, string_interactions := none,
      hpa_expression := none, intact := none, bioplex := none, biogrid := none,
      errors := [] }
  let r := match oString with
    | .ok d => { r with string_interactions := some d, errors := r.errors ++ d.errors }
    | .error e => { r with errors := r.errors ++ ["STRING-db failed: " ++ e] }
  let r := match oHpa with
    | .ok d => { r with hpa_expression := some d, errors := r.errors ++ d.errors }
    | .error e => { r with errors := r.errors ++ ["HPA failed: " ++ e] }
  let r := match oIntact with
    | .ok d => { r with intact := some d, errors := r.errors ++ d.errors }
    | .error e => { r with errors := r.errors ++ ["IntAct failed: " ++ e] }
  let r := match oBioplex with
    | .ok d => { r with bioplex := some d, errors := r.errors ++ d.errors }
    | .error e => { r with errors := r.errors ++ ["BioPlex failed: " ++ e] }
  match oBiogrid with
  | .ok d => { r with biogrid := some d, errors := r.errors ++ d.errors }
  | .error e => { r with errors := r.errors ++ ["BioGRID failed: " ++ e] }

/-- A concrete IntAct result carrying one in-band error string. -/
def sampleIntactResult : Intact.IntactResult :=
  { database := "IntAct", gene_symbol := "g", interactions := [],
    total_count := 0, errors := ["intact warning"] }

/-- A concrete empty STRING result. -/
def emptyStringResult : StringResult := { interactions := [], errors := [] }

/-- A concrete empty HPA result. -/
def emptyHpaResult : HpaResult :=
  { protein_class := "", subcellular_location := "", tissue_expression := "",
    rna_expression := "", errors := [] }

/-- A concrete empty BioGRID result. -/
def emptyBiogridResult : Biogrid.BiogridResult :=
  { database := "BioGRID", gene_symbol := "g", interactions := [],
    total_count := 0, errors := [] }

end Protein

/-! ## `ncbi_utils.py`  (claim C7)

Wall-clock time is a rational number of seconds.  `time.sleep(d)` advances
the clock by `d`; `requests.get` starts at the current time and completes
after the oracle-given latency.  The module-global `_last_request_time` is
threaded through `NcbiState`. -/

namespace Ncbi

/-- `NCBI_MIN_INTERVAL = 0.11 if NCBI_API_KEY else 0.35` (an unset or empty
key is falsy); the float literals are read as the rationals they denote. -/
def NCBI_MIN_INTERVAL (envApiKey : Option String) : ℚ :=
  if envApiKey.getD "" = "" then 35/100 else 11/100

/-- `NCBI_TOOL = os.environ.get("NCBI_TOOL", "variant_research")`. -/
def NCBI_TOOL (envTool : Option String) : String := envTool.getD "variant_research"

/-- `NCBI_EMAIL = os.environ.get("NCBI_EMAIL", "variant_research@example.com")`. -/
def NCBI_EMAIL (envEmail : Option String) : String :=
  envEmail.getD "variant_research@example.com"

/-- The required-parameter injection of `ncbi_get`: add `tool`, `email`, and
`api_key` when a key is configured. -/
def ncbiParams (envTool envEmail envApiKey : Option String)
    (params : List (String × String)) : List (String × String) :=
  params ++ [("tool", NCBI_TOOL envTool), ("email", NCBI_EMAIL envEmail)]
    ++ (match envApiKey with
        | some k => if k = "" then [] else [("api_key", k)]
        | none => [])

/-- The outcome class of one `requests.get` inside `ncbi_get`: success, a 429
(with the parsed `retry-after` header, defaulting to 2), another 4xx/5xx that
`raise_for_status` turns into an uncaught `HTTPError`, or a raised
connection error / timeout. -/
inductive NcbiResp where
  | ok
  | tooMany (retryAfter : Nat)
  | httpErr
  | connErr
deriving DecidableEq, Repr

/-- One attempt's behaviour: the request's latency and its outcome. -/
structure NcbiOutcome where
  latency : ℚ
  resp : NcbiResp
deriving DecidableEq, Repr

/-- The clock state: current wall time and the module-global
`_last_request_time`. -/
structure NcbiState where
  now : ℚ
  lastRequestTime : ℚ
deriving DecidableEq, Repr

/-- One retry-loop iteration's proactive rate limiting and request: sleep
whatever remains of the minimum interval since `_last_request_time`, set
`_last_request_time` to the current time, issue the request.  Returns the
request's start time and the state once the response (or exception)
arrives. -/
def ncbiAttempt (minInterval : ℚ) (o : NcbiOutcome) (s : NcbiState) : ℚ × NcbiState :=
  let elapsed := s.now - s.lastRequestTime
  let now1 := if elapsed < minInterval then s.now + (minInterval - elapsed) else s.now
  (now1, { now := now1 + o.latency, lastRequestTime := now1 })

/-- How the retry loop of `ncbi_get` ended. -/
inductive NcbiLoopExit where
  | returned
  | raised
  | exhausted
deriving DecidableEq, Repr

/-- The retry loop's result: final clock state, the start times of the
requests it issued (in order), and how it ended. -/
structure NcbiLoopOut where
  state : NcbiState
  requests : List ℚ
  exit : NcbiLoopExit
deriving DecidableEq, Repr

/-- The retry loop `for attempt in range(max_retries)` of `ncbi_get`: a 429
sleeps the `retry-after` value and continues; a connection error sleeps
`2 ** attempt` and continues, or propagates on the last iteration; any other
4xx/5xx propagates immediately; exhausting the range (only possible through
429s) falls through to the final attempt. -/
def ncbiLoop (minInterval : ℚ) (net : Nat → NcbiOutcome) :
    Nat → Nat → NcbiState → NcbiLoopOut
  | _, 0, s => ⟨s, [], .exhausted⟩
  | attempt, fuel + 1, s =>
    match (net attempt).resp, ncbiAttempt minInterval (net attempt) s with
    | .ok, (t, s1) => ⟨s1, [t], .returned⟩
    | .httpErr, (t, s1) => ⟨s1, [t], .raised⟩
    | .tooMany ra, (t, s1) =>
      let rest := ncbiLoop minInterval net (attempt + 1) fuel { s1 with now := s1.now + ra }
      ⟨rest.state, t :: rest.requests, rest.exit⟩
    | .connErr, (t, s1) =>
      match fuel with
      | f + 1 =>
        let rest := ncbiLoop minInterval net (attempt + 1) (f + 1)
          { s1 with now := s1.now + 2 ^ attempt }
        ⟨rest.state, t :: rest.requests, rest.exit⟩
      | 0 => ⟨s1, [t], .raised⟩

/-- The result of one `ncbi_get` call: final clock state, the start times of
the requests issued by the rate-limited retry loop, the start time of the
post-loop final attempt when the loop exhausted, and whether the call
returned or raised. -/
structure NcbiRun where
  state : NcbiState
  loopRequests : List ℚ
  finalRequest : Option ℚ
  exit : NcbiLoopExit
deriving DecidableEq, Repr

/-- `ncbi_get` from `ncbi_utils.py` (its timing behaviour; the parameter
bookkeeping is `ncbiParams`).  When the retry loop exhausts, the final
attempt sets `_last_request_time` and issues its request immediately, with
no proactive sleep; `raise_for_status` then returns on success and raises on
any error status. -/
def ncbi_get (envApiKey : Option String) (net : Nat → NcbiOutcome)
    (s : NcbiState) (max_retries : Nat := 3) : NcbiRun :=
  match ncbiLoop (NCBI_MIN_INTERVAL envApiKey) net 0 max_retries s with
  | ⟨s1, reqs, .returned⟩ => ⟨s1, reqs, none, .returned⟩
  | ⟨s1, reqs, .raised⟩ => ⟨s1, reqs, none, .raised⟩
  | ⟨s1, reqs, .exhausted⟩ =>
    ⟨{ now := s1.now + (net max_retries).latency, lastRequestTime := s1.now }, reqs,
      some s1.now,
      match (net max_retries).resp with
      | .ok => .returned
      | _ => .raised⟩

end Ncbi

/-! ## `resolve_variant.py`  (claim C9) -/

namespace Resolve

/-- `dict.get(key, default)` on a JSON object.  (On a non-object Python would
raise `AttributeError`; the model yields the default — such payloads do not
occur in the properties proved here.) -/
def jget (j : Json) (key : String) (default : Json) : Json :=
  match j with
  | .obj fields => ((fields.find? (fun f => f.1 == key)).map Prod.snd).getD default
  | _ => default

/-- Python truthiness of a JSON value. -/
def jtruthy : Json → Bool
  | .null => false
  | .bool b => b
  | .str s => s != ""
  | .num q => q != 0
  | .arr xs => !xs.isEmpty
  | .obj fs => !fs.isEmpty

/-- Python `str(x)`, as used by the f-strings (only scalar payloads are
formatted there; composite ones get a stand-in). -/
def jstr : Json → String
  | .str s => s
  | .null => "None"
  | .bool b => if b then "True" else "False"
  | .num q => toString q
  | .arr _ => "[list]"
  | .obj _ => "[dict]"

/-- `x[0] if isinstance(x, list) else x` (the empty-list `IndexError` is
modelled as `null`). -/
def jfirstIfList : Json → Json
  | .arr (x :: _) => x
  | .arr [] => .null
  | j => j

/-- The result dict of `resolve_variant`: the normalized rsID, the extracted
annotation fields (`null` = Python `None`), and the error strings. -/
structure VariantResult where
  rsid : String
  gene_symbol : Json
  gene_name : Json
  ensembl_gene_id : Json
  chromosome : Json
  position : Json
  alleles : Json
  consequence : Json
  clinvar_significance : Json
  protein_change : Json
  errors : List String

/-- The two possible returns of `resolve_variant`: the early
`{"error": ...}`-only dict for an invalid rsID, or the result dict. -/
inductive ResolveOutcome where
  | invalid (error : String)
  | ok (r : VariantResult)

/-- The successful-response branch of `resolve_variant`: extract the fields
of the first hit (gene symbol through three fallbacks, each tolerant of
scalar-vs-list payloads), then the optional gene-name lookup.  Returns the
updated result and the number of extra HTTP requests (the `_lookup_gene_name`
call).  `geneNameNet` models `_lookup_gene_name`: `none` is a `None` return
(failure, no hits, or missing name). -/
def resolveFromHits (rsid : String) (base : VariantResult)
    (geneNameNet : Json → Option String) (data : Json) : VariantResult × Nat :=
  let hits := jget data "hits" (.arr [])
  if ¬ jtruthy hits then
    ({ base with errors := base.errors ++ ["No hits found for " ++ rsid] }, 0)
  else
    let hit := jfirstIfList hits
    let dbsnp := jget hit "dbsnp" (.obj [])
    let chromosome := jget dbsnp "chrom" .null
    let hg19 := jget dbsnp "hg19" (.obj [])
    let st := jget hg19 "start" .null
    let position := if jtruthy st then st else jget hg19 "end" .null
    let ref := jget dbsnp "ref" .null
    let alt := jget dbsnp "alt" .null
    let alleles :=
      if jtruthy ref ∧ jtruthy alt then Json.str (jstr ref ++ ">" ++ jstr alt) else Json.null
    let dbnsfp := jget hit "dbnsfp" (.obj [])
    let gene_sym : Json :=
      match dbnsfp with
      | .obj _ => jfirstIfList (jget dbnsfp "genename" .null)
      | _ => .null
    let cadd_gene := jget (jget hit "cadd" (.obj [])) "gene" (.obj [])
    let gene_sym :=
      if jtruthy gene_sym then gene_sym
      else match cadd_gene with
        | .obj _ => jget cadd_gene "genename" .null
        | .arr (x :: _) => jget x "genename" .null
        | _ => gene_sym
    let gene_info := jget dbsnp "gene" (.obj [])
    let gene_sym :=
      if jtruthy gene_sym then gene_sym
      else match gene_info with
        | .obj _ => jget gene_info "symbol" .null
        | .arr (x :: _) => jget x "symbol" .null
        | _ => gene_sym
    let ensembl := jget dbnsfp "ensembl" (.obj [])
    let ens_id :=
      match ensembl with
      | .obj _ => jget ensembl "geneid" .null
      | .arr (x :: _) => jget x "geneid" .null
      | _ => .null
    let ens_id := jfirstIfList ens_id
    let snpeff := jget hit "snpeff" (.obj [])
    let conseq : Json × Json :=
      match snpeff with
      | .obj _ =>
        let ann0 := jget snpeff "ann" (.obj [])
        let ann := match ann0 with | .arr (x :: _) => x | _ => ann0
        match ann with
        | .obj _ => (jget ann "effect" .null, jget ann "hgvs_p" .null)
        | _ => (.null, .null)
      | _ => (.null, .null)
    let clinvar := jget hit "clinvar" (.obj [])
    let clin_sig :=
      match clinvar with
      | .obj _ =>
        let rcv0 := jget clinvar "rcv" (.obj [])
        let rcv := match rcv0 with | .arr (x :: _) => x | _ => rcv0
        match rcv with
        | .obj _ => jget rcv "clinical_significance" .null
        | _ => .null
      | _ => .null
    let lookup : Option (Option String) :=
      if jtruthy gene_sym then some (geneNameNet gene_sym) else none
    let gene_name : Json :=
      match lookup with
      | some (some n) => .str n
      | some none => .null
      | none => .null
    ({ base with
        chromosome := chromosome, position := position, alleles := alleles,
        gene_symbol := gene_sym, ensembl_gene_id := ens_id,
        consequence := conseq.1, protein_change := conseq.2,
        clinvar_significance := clin_sig, gene_name := gene_name },
     match lookup with | some _ => 1 | none => 0)

/-- The retry loop of `resolve_variant`, counting HTTP requests; fuel is the
number of remaining attempts (the fuel-0 value is the unreachable trailing
`return result`). -/
def resolveAttempts (rsid : String) (base : VariantResult) (net : Nat → Except String Json)
    (geneNameNet : Json → Option String) : Nat → Nat → ResolveOutcome × Nat
  | _, 0 => (.ok base, 0)
  | attempt, fuel + 1 =>
    match net attempt with
    | .error e =>
      match fuel with
      | f + 1 =>
        let rest := resolveAttempts rsid base net geneNameNet (attempt + 1) (f + 1)
        (rest.1, rest.2 + 1)
      | 0 => (.ok { base with errors := base.errors ++ ["API request failed: " ++ e] }, 1)
    | .ok data =>
      let hitres := resolveFromHits rsid base geneNameNet data
      (.ok hitres.1, 1 + hitres.2)

/-- `resolve_variant` from `resolve_variant.py`, paired with the number of
HTTP requests made.  `net` gives each attempt's parsed query response or the
message of a raised `requests.RequestException`. -/
def resolve_variant (rsid : String) (net : Nat → Except String Json)
    (geneNameNet : Json → Option String) (max_retries : Nat := 1) :
    ResolveOutcome × Nat :=
  let rsid := strLower (pyStrip rsid)
  if ¬ strStartsWith rsid "rs" then
    (.invalid ("Invalid rsID format: " ++ rsid ++ ". Expected format: rs12345"), 0)
  else
    let result : VariantResult :=
      { rsid := rsid, gene_symbol := .null, gene_name := .null, ensembl_gene_id := .null,
        chromosome := .null, position := .null, alleles := .null, consequence := .null,
        clinvar_significance := .null, protein_change := .null, errors := [] }
    resolveAttempts rsid result net geneNameNet 0 (max_retries + 1)

/-- A concrete query oracle whose response has an empty `hits` array. -/
def emptyHitsNet : Nat → Except String Json := fun _ => .ok (.obj [("hits", .arr [])])

/-- A concrete gene-name oracle that always fails. -/
def noGeneNameNet : Json → Option String := fun _ => none

/-- The result `resolve_variant "RS699"` produces against `emptyHitsNet`. -/
def sampleResolved : VariantResult :=
  { rsid := "rs699", gene_symbol := .null, gene_name := .null, ensembl_gene_id := .null,
    chromosome := .null, position := .null, alleles := .null, consequence := .null,
    clinvar_significance := .null, protein_change := .null,
    errors := ["No hits found for rs699"] }

end Resolve

end VariantResearch

namespace VariantResearch.Patents

/-- C1 counterexample: on the title `"drug test disease"` with empty abstract the
drug and diagnostic scores are equal (both 1) and no category strictly beats
them (the therapeutic score is also 1), yet the classifier does not return
`"drug"`: it returns `"therapeutic"`. -/
theorem c1_counterexample :
    drug_score "drug test disease" "" = diag_score "drug test disease" "" ∧
    ¬ ther_score "drug test disease" "" > drug_score "drug test disease" "" ∧
    ¬ diag_score "drug test disease" "" > drug_score "drug test disease" "" ∧
    _classify_patent "drug test disease" "" ≠ "drug" ∧
    _classify_patent "drug test disease" "" = "therapeutic" := by
  decide

/-- C1 (amended): when the drug score and the diagnostic score are equal and the
drug score strictly exceeds the therapeutic score, `_classify_patent` returns
`"drug"` — the drug/diagnostic tie is broken in favor of `"drug"`.  (On a
three-way tie the classifier instead returns `"therapeutic"`, or `"other"` when
all scores are zero.) -/
theorem c1_tie_favors_drug (title abstract : String)
    (hda : drug_score title abstract = diag_score title abstract)
    (ht : ther_score title abstract < drug_score title abstract) :
    _classify_patent title abstract = "drug" := by
  unfold _classify_patent
  rw [if_pos ⟨le_of_eq hda.symm, ht⟩]

/-- Witness for `c1_tie_favors_drug` at the concrete patent title `"drug test"`:
scores are drug = 1, diagnostic = 1, therapeutic = 0. -/
theorem c1_tie_favors_drug_witness :
    drug_score "drug test" "" = diag_score "drug test" "" ∧
    ther_score "drug test" "" < drug_score "drug test" "" ∧
    _classify_patent "drug test" "" = "drug" :=
  ⟨by decide, by decide, c1_tie_favors_drug "drug test" "" (by decide) (by decide)⟩

end VariantResearch.Patents

namespace VariantResearch

/-- C3: for every gene symbol, when the required API-key environment variable
is unset (`none`), `fetch_biogrid_interactions` and `fetch_all_patents` return
a result whose interaction/patent list is empty and whose errors list is
exactly one descriptive string, and issue no HTTP request (request count 0). -/
theorem c3_missing_api_key (gene_symbol rsid gene_name : String)
    (netB : Nat → Except String (List (String × Biogrid.BiogridRaw)))
    (netP : String → Except String (List Patents.RawPatent)) (mr : Nat) :
    (Biogrid.fetch_biogrid_interactions none gene_symbol netB mr).1.interactions = [] ∧
    (Biogrid.fetch_biogrid_interactions none gene_symbol netB mr).1.errors =
      ["BIOGRID_API_KEY not set. Get a free key at https://wiki.thebiogrid.org/doku.php/biogridrest"] ∧
    (Biogrid.fetch_biogrid_interactions none gene_symbol netB mr).2 = 0 ∧
    (Patents.fetch_all_patents none rsid gene_symbol gene_name netP).1.patents = [] ∧
    (Patents.fetch_all_patents none rsid gene_symbol gene_name netP).1.errors =
      ["PATENTSVIEW_API_KEY not set. Get a free key at https://patentsview.org/apis/keyrequest"] ∧
    (Patents.fetch_all_patents none rsid gene_symbol gene_name netP).2 = 0 := by
  refine ⟨?_, ?_, ?_, ?_, ?_, ?_⟩ <;>
    simp [Biogrid.fetch_biogrid_interactions, Patents.fetch_all_patents]

/-- C10: on a successfully read BioPlex file, `total_count` is the number of
rows matching the queried gene case-insensitively on `SymbolA`/`SymbolB`,
the interactions list is the first `max_results` matches in file order, so
its length never exceeds `total_count` (and can be smaller, as the final
conjunct shows at a concrete input). -/
theorem c10_bioplex_counts :
    (∀ (gene_symbol : String) (rows : List Bioplex.BioplexRow) (max_results : Nat),
      (Bioplex.fetch_bioplex_interactions gene_symbol (.rows rows) max_results).total_count
          = (rows.filter (Bioplex.bioplexMatch (strUpper gene_symbol))).length ∧
      (Bioplex.fetch_bioplex_interactions gene_symbol (.rows rows) max_results).interactions
          = ((rows.filter (Bioplex.bioplexMatch (strUpper gene_symbol))).take max_results).map
              Bioplex.mkBioplexInteraction ∧
      (Bioplex.fetch_bioplex_interactions gene_symbol (.rows rows) max_results).interactions.length
          ≤ max_results ∧
      (Bioplex.fetch_bioplex_interactions gene_symbol (.rows rows) max_results).interactions.length
          ≤ (Bioplex.fetch_bioplex_interactions gene_symbol (.rows rows) max_results).total_count) ∧
    (∃ (gene_symbol : String) (rows : List Bioplex.BioplexRow) (max_results : Nat),
      (Bioplex.fetch_bioplex_interactions gene_symbol (.rows rows) max_results).interactions.length
          < (Bioplex.fetch_bioplex_interactions gene_symbol (.rows rows) max_results).total_count) := by
  constructor
  · intro gene_symbol rows max_results
    refine ⟨rfl, rfl, ?_, ?_⟩ <;>
      simp [Bioplex.fetch_bioplex_interactions, List.length_take]
  · refine ⟨"a", [Bioplex.sampleRowA, Bioplex.sampleRowA], 1, ?_⟩
    decide

/-- Helper for C5: when every `intact-miscore:` part of a confidence field
has an unparseable value, the fold keeps `None`. -/
theorem intactScore_foldl_none (parts : List String)
    (h : ∀ part ∈ parts, strContains part "intact-miscore:" = true →
      ∀ s, (strSplitOn part ":").get? 1 = some s → pyFloat? s = none) :
    parts.foldl Intact.intactScoreStep none = none := by
  induction parts with
  | nil => rfl
  | cons p ps ih =>
    have hstep : Intact.intactScoreStep none p = none := by
      unfold Intact.intactScoreStep
      by_cases hc : strContains p "intact-miscore:" = true
      · rw [if_pos hc]
        cases hs : (strSplitOn p ":").get? 1 with
        | none => rfl
        | some s => simp only [h p (List.mem_cons_self p ps) hc s hs]
      · rw [if_neg hc]
    rw [List.foldl_cons, hstep]
    exact ih fun part hp => h part (List.mem_cons_of_mem p hp)

/-- C5: malformed numeric fields parse to `None` without any exception.  For
BioPlex, every normalized record is `mkBioplexInteraction` of its source row,
and a row whose `pW`/`pNI`/`pInt` string does not parse as a Python float
yields `None` in the corresponding field.  For IntAct, every successfully
parsed MITAB record's confidence score is `intactScore` of the line's
confidence field — a total function — and when every `intact-miscore:` part
of that field is unparseable the score is `None`. -/
theorem c5_malformed_numeric_fields (rows : List Bioplex.BioplexRow) (gene_symbol : String)
    (max_results : Nat) (row : Bioplex.BioplexRow) (sW sNI sInt conf line : String)
    (rec' : Intact.IntactInteraction) :
    ((Bioplex.fetch_bioplex_interactions gene_symbol (.rows rows) max_results).interactions
        = ((rows.filter (Bioplex.bioplexMatch (strUpper gene_symbol))).take max_results).map
            Bioplex.mkBioplexInteraction) ∧
    (row.pW = some sW → pyFloat? sW = none →
      (Bioplex.mkBioplexInteraction row).p_wrong = none) ∧
    (row.pNI = some sNI → pyFloat? sNI = none →
      (Bioplex.mkBioplexInteraction row).p_no_interaction = none) ∧
    (row.pInt = some sInt → pyFloat? sInt = none →
      (Bioplex.mkBioplexInteraction row).p_interaction = none) ∧
    (Intact.parseMitabLine line = .ok (some rec') →
      rec'.confidence_score = Intact.intactScore
        (if (strSplitOn line "\t").length > 14 then (strSplitOn line "\t").getD 14 "" else "")) ∧
    ((∀ part ∈ strSplitOn conf "|", strContains part "intact-miscore:" = true →
        ∀ s, (strSplitOn part ":").get? 1 = some s → pyFloat? s = none) →
      Intact.intactScore conf = none) := by
  refine ⟨rfl, ?_, ?_, ?_, ?_, ?_⟩
  · intro h1 h2
    simp [Bioplex.mkBioplexInteraction, Bioplex.bioplexFloatField, h1, h2]
  · intro h1 h2
    simp [Bioplex.mkBioplexInteraction, Bioplex.bioplexFloatField, h1, h2]
  · intro h1 h2
    simp [Bioplex.mkBioplexInteraction, Bioplex.bioplexFloatField, h1, h2]
  · intro h
    unfold Intact.parseMitabLine at h
    by_cases hb : pyStrip line = ""
    · simp [hb] at h
    · rw [if_neg hb] at h
      by_cases hl : (strSplitOn line "\t").length < 15
      · simp [hl] at h
      · rw [if_neg hl] at h
        rcases he : Intact._extract_name ((strSplitOn line "\t").getD 4 "") with e | na
        · rw [he] at h; exact absurd h (by simp)
        · rw [he] at h
          rcases he2 : Intact._extract_name ((strSplitOn line "\t").getD 5 "") with e | nb
          · rw [he2] at h; exact absurd h (by simp)
          · rw [he2] at h
            simp only [Except.ok.injEq, Option.some.injEq] at h
            rw [← h]
  · intro h
    unfold Intact.intactScore
    by_cases hc : conf = ""
    · rw [if_pos hc]
    · rw [if_neg hc]
      exact intactScore_foldl_none _ h

/-- Witness for `c5_malformed_numeric_fields` at concrete malformed inputs:
the strings `"abc"`, `"1.2.3"`, `"--5"` do not parse as floats and the
corresponding BioPlex fields are `None`; a concrete 15-field MITAB line with
confidence `intact-miscore:xyz` parses to a record whose confidence score is
`None`. -/
theorem c5_malformed_numeric_fields_witness :
    pyFloat? "abc" = none ∧ pyFloat? "1.2.3" = none ∧ pyFloat? "--5" = none ∧
    (Bioplex.mkBioplexInteraction Bioplex.sampleMalformedRow).p_wrong = none ∧
    (Bioplex.mkBioplexInteraction Bioplex.sampleMalformedRow).p_no_interaction = none ∧
    (Bioplex.mkBioplexInteraction Bioplex.sampleMalformedRow).p_interaction = none ∧
    Intact.parseMitabLine Intact.sampleMitabLine = .ok (some Intact.sampleMitabRec) ∧
    Intact.sampleMitabRec.confidence_score =
      Intact.intactScore ((strSplitOn Intact.sampleMitabLine "\t").getD 14 "") ∧
    Intact.intactScore "intact-miscore:xyz" = none := by
  have h := c5_malformed_numeric_fields [] "" 0 Bioplex.sampleMalformedRow
    "abc" "1.2.3" "--5" "intact-miscore:xyz" Intact.sampleMitabLine Intact.sampleMitabRec
  refine ⟨by decide, by decide, by decide, ?_, ?_, ?_, by rfl, ?_, ?_⟩
  · exact h.2.1 rfl (by decide)
  · exact h.2.2.1 rfl (by decide)
  · exact h.2.2.2.1 rfl (by decide)
  · have h5 := h.2.2.2.2.1 (by rfl)
    rw [h5]
    decide
  · exact h.2.2.2.2.2 (by decide)

/-- Helper for C2: everything `dedupPairs` keeps comes from the candidate
list. -/
theorem dedupPairs_subset (cands : List (String × Report.RefEntry)) (seen : List String) :
    ∀ p ∈ Report.dedupPairs cands seen, p ∈ cands := by
  induction cands generalizing seen with
  | nil => intro p hp; exact absurd hp (by simp [Report.dedupPairs])
  | cons c rest ih =>
    intro p hp
    unfold Report.dedupPairs at hp
    cases hc : seen.contains c.1 with
    | true =>
      rw [if_pos hc] at hp
      exact List.mem_cons_of_mem c (ih seen p hp)
    | false =>
      rw [if_neg (by rw [hc]; exact Bool.false_ne_true)] at hp
      rcases List.mem_cons.mp hp with h | h
      · rw [h]; exact List.mem_cons_self c rest
      · exact List.mem_cons_of_mem c (ih (c.1 :: seen) p h)

/-- Helper for C2: the kept keys are distinct, and none of them was already
seen. -/
theorem dedupPairs_keys_nodup (cands : List (String × Report.RefEntry)) (seen : List String) :
    ((Report.dedupPairs cands seen).map Prod.fst).Nodup ∧
    ∀ k ∈ (Report.dedupPairs cands seen).map Prod.fst, seen.contains k = false := by
  induction cands generalizing seen with
  | nil => exact ⟨List.nodup_nil, by simp [Report.dedupPairs]⟩
  | cons c rest ih =>
    unfold Report.dedupPairs
    cases hc : seen.contains c.1 with
    | true =>
      rw [if_pos rfl]
      exact ih seen
    | false =>
      rw [if_neg Bool.false_ne_true]
      obtain ⟨ihn, ihs⟩ := ih (c.1 :: seen)
      rw [List.map_cons, List.nodup_cons]
      refine ⟨⟨fun hmem => ?_, ihn⟩, fun k hk => ?_⟩
      · have := ihs c.1 hmem
        simp [List.contains_cons] at this
      · rcases List.mem_cons.mp hk with h | h
        · rw [h]; exact hc
        · have := ihs k h
          simp only [List.contains_cons, Bool.or_eq_false_iff] at this
          exact this.2

/-- Helper for C2: for an unseen key, the kept entry under that key is the
first candidate carrying it. -/
theorem dedupPairs_find (cands : List (String × Report.RefEntry)) (seen : List String)
    (k : String) (hk : seen.contains k = false) :
    (Report.dedupPairs cands seen).find? (fun p => p.1 == k) =
      cands.find? (fun p => p.1 == k) := by
  induction cands generalizing seen with
  | nil => simp [Report.dedupPairs]
  | cons c rest ih =>
    unfold Report.dedupPairs
    cases hc : seen.contains c.1 with
    | true =>
      rw [if_pos rfl]
      have hne : (c.1 == k) = false := by
        apply beq_eq_false_iff_ne.mpr
        intro h
        rw [h] at hc
        exact Bool.false_ne_true (hk.symm.trans hc)
      rw [ih seen hk, List.find?_cons, hne]
    | false =>
      rw [if_neg Bool.false_ne_true]
      rw [List.find?_cons, List.find?_cons]
      cases hck : (c.1 == k) with
      | true => simp
      | false =>
        simp only [cond_false]
        apply ih
        simp only [List.contains_cons, Bool.or_eq_false_iff]
        exact ⟨by rw [BEq.comm] at hck; exact hck, hk⟩

/-- Helper for C2: a list with distinct keys determines its entries by key. -/
theorem keys_nodup_inj (l : List (String × Report.RefEntry))
    (h : (l.map Prod.fst).Nodup) :
    ∀ p ∈ l, ∀ q ∈ l, p.1 = q.1 → p = q := by
  induction l with
  | nil => intro p hp; exact absurd hp (by simp)
  | cons x xs ih =>
    rw [List.map_cons, List.nodup_cons] at h
    intro p hp q hq hpq
    rcases List.mem_cons.mp hp with h1 | h1 <;> rcases List.mem_cons.mp hq with h2 | h2
    · rw [h1, h2]
    · exfalso
      apply h.1
      have hx : x.1 = q.1 := by rw [← h1]; exact hpq
      rw [hx]
      exact List.mem_map_of_mem Prod.fst h2
    · exfalso
      apply h.1
      have hx : x.1 = p.1 := by rw [← h2]; exact hpq.symm
      rw [hx]
      exact List.mem_map_of_mem Prod.fst h1
    · exact ih h.2 p h1 q h2 hpq

/-- Helper for C2: every candidate's entry carries its key as `id`, or an
empty `id` (Scholar entries). -/
theorem refCandidates_id_key (literature : Report.Literature) (protein : Report.ProteinDoc) :
    ∀ p ∈ Report.refCandidates literature protein, p.2.id = p.1 ∨ p.2.id = "" := by
  intro p hp
  simp only [Report.refCandidates, List.append_assoc, List.mem_append,
    List.mem_filterMap] at hp
  rcases hp with ⟨a, _, ha⟩ | ⟨a, _, ha⟩ | ⟨i, _, hi⟩ | ⟨i, _, hi⟩
  · by_cases h : a.pmid = ""
    · rw [if_pos h] at ha; exact Option.noConfusion ha
    · rw [if_neg h] at ha
      rw [← Option.some.inj ha]
      left; rfl
  · by_cases h : Report.scholarKey a = ""
    · rw [if_pos h] at ha; exact Option.noConfusion ha
    · rw [if_neg h] at ha
      rw [← Option.some.inj ha]
      right; rfl
  · by_cases h : Report.DbInteraction.pmidKey i = ""
    · rw [if_pos h] at hi; exact Option.noConfusion hi
    · rw [if_neg h] at hi
      rw [← Option.some.inj hi]
      left; rfl
  · by_cases h : Report.DbInteraction.pmidKey i = ""
    · rw [if_pos h] at hi; exact Option.noConfusion hi
    · rw [if_neg h] at hi
      rw [← Option.some.inj hi]
      left; rfl

/-- C2: the reference list keeps at most one entry per deduplication key
(distinct kept keys), and when a nonempty PMID occurs both among the
literature's PubMed articles and among the interaction-database records, the
kept entry under that PMID is the first matching literature citation — a
`pubmedRef` with its title, authors, journal and year — and it is the only
entry of the reference list whose `id` is that PMID. -/
theorem c2_references_dedup (literature : Report.Literature) (protein : Report.ProteinDoc)
    (pmid : String) (hp : pmid ≠ "")
    (hlit : ∃ a ∈ literature.pubmed_articles, a.pmid = pmid)
    (hdb : ∃ i ∈ protein.intact ++ protein.biogrid,
      Report.DbInteraction.pmidKey i = pmid) :
    ((Report.dedupPairs (Report.refCandidates literature protein) []).map Prod.fst).Nodup ∧
    ∃ a ∈ literature.pubmed_articles, a.pmid = pmid ∧
      Report.pubmedRef a ∈ Report._collect_references literature protein ∧
      ∀ r ∈ Report._collect_references literature protein, r.id = pmid →
        r = Report.pubmedRef a := by
  clear hdb
  obtain ⟨a0, ha0, hpm0⟩ := hlit
  have hnodup := (dedupPairs_keys_nodup (Report.refCandidates literature protein) []).1
  refine ⟨hnodup, ?_⟩
  -- the first pubmed candidate with this key
  set l₁ := literature.pubmed_articles.filterMap fun a =>
    if a.pmid = "" then none else some (a.pmid, Report.pubmedRef a) with hl₁
  have hmem1 : (pmid, Report.pubmedRef a0) ∈ l₁ := by
    rw [hl₁]
    exact List.mem_filterMap.mpr ⟨a0, ha0, by rw [hpm0]; simp [hp]⟩
  have hsome : (l₁.find? (fun p => p.1 == pmid)).isSome := by
    rw [List.find?_isSome]
    exact ⟨(pmid, Report.pubmedRef a0), hmem1, by simp⟩
  obtain ⟨c, hc⟩ := Option.isSome_iff_exists.mp hsome
  have hcands : (Report.refCandidates literature protein).find? (fun p => p.1 == pmid)
      = some c := by
    unfold Report.refCandidates
    rw [← hl₁, List.find?_append, List.find?_append, List.find?_append, hc]
    rfl
  have hdedup : (Report.dedupPairs (Report.refCandidates literature protein) []).find?
      (fun p => p.1 == pmid) = some c := by
    rw [dedupPairs_find _ _ _ (by simp), hcands]
  have hcmem : c ∈ Report.dedupPairs (Report.refCandidates literature protein) [] :=
    List.mem_of_find?_eq_some hdedup
  have hckey : c.1 = pmid := by
    have := List.find?_some hdedup
    exact eq_of_beq this
  obtain ⟨a, ha, hfa⟩ := List.mem_filterMap.mp (List.mem_of_find?_eq_some hc)
  have hapm : a.pmid ≠ "" := by
    by_contra h
    rw [if_pos h] at hfa
    exact Option.noConfusion hfa
  rw [if_neg hapm] at hfa
  have hpair := Option.some.inj hfa
  have hc2 : c.2 = Report.pubmedRef a := by rw [← hpair]
  have hc1 : c.1 = a.pmid := by rw [← hpair]
  refine ⟨a, ha, by rw [← hc1, hckey], ?_, ?_⟩
  · rw [← hc2]
    exact List.mem_map_of_mem Prod.snd hcmem
  · intro r hr hrid
    obtain ⟨p, hpmem, hpr⟩ := List.mem_map.mp hr
    have hpkey : p.1 = pmid := by
      rcases refCandidates_id_key literature protein p
          (dedupPairs_subset _ _ p hpmem) with h | h
      · rw [← h, hpr, hrid]
      · rw [hpr] at h; rw [h] at hrid; exact absurd hrid.symm hp
    have := keys_nodup_inj _ hnodup p hpmem c hcmem (by rw [hpkey, hckey])
    rw [← hpr, this, hc2]

/-- Witness for `c2_references_dedup`: a literature document citing PMID 123
and an IntAct record citing the same PMID; the reference list keeps the
literature citation. -/
theorem c2_references_dedup_witness :
    ("123" : String) ≠ "" ∧
    ((Report.dedupPairs (Report.refCandidates Report.sampleLiterature Report.sampleProtein)
        []).map Prod.fst).Nodup ∧
    Report.pubmedRef Report.sampleArticle ∈
      Report._collect_references Report.sampleLiterature Report.sampleProtein ∧
    ∀ r ∈ Report._collect_references Report.sampleLiterature Report.sampleProtein,
      r.id = "123" → r = Report.pubmedRef Report.sampleArticle := by
  have h := c2_references_dedup Report.sampleLiterature Report.sampleProtein "123"
    (by decide)
    ⟨Report.sampleArticle, by simp [Report.sampleLiterature], rfl⟩
    ⟨Report.sampleDbInteraction, by simp [Report.sampleProtein], rfl⟩
  obtain ⟨hnodup, a, ha, hpm, hmem, huniq⟩ := h
  have haeq : a = Report.sampleArticle := by
    simpa [Report.sampleLiterature] using ha
  rw [haeq] at hmem huniq
  exact ⟨by decide, hnodup, hmem, huniq⟩

/-- C8: a missing category file loads as the stand-in
`{"_unavailable": true, "errors": [<one descriptive string>]}`, a malformed
one likewise with the decoder's message, rather than raising; and each of the
six category files of `generate_report` is loaded independently through
`load_json_file`, so the remaining categories still load. -/
theorem c8_load_json_file (fs : String → Report.FileRead) (p m rsid dir : String) :
    (fs p = .missing →
      Report.load_json_file fs p =
        .obj [("_unavailable", .bool true),
              ("errors", .arr [.str ("File not found: " ++ p)])]) ∧
    (fs p = .invalid m →
      Report.load_json_file fs p =
        .obj [("_unavailable", .bool true),
              ("errors", .arr [.str ("Invalid JSON in " ++ p ++ ": " ++ m)])]) ∧
    (Report.loadCategoryFiles fs rsid dir).variant_info =
      Report.load_json_file fs (dir ++ "/" ++ pyStrip (strLower rsid) ++ "_variant.json") ∧
    (Report.loadCategoryFiles fs rsid dir).literature =
      Report.load_json_file fs (dir ++ "/" ++ pyStrip (strLower rsid) ++ "_literature.json") ∧
    (Report.loadCategoryFiles fs rsid dir).patents =
      Report.load_json_file fs (dir ++ "/" ++ pyStrip (strLower rsid) ++ "_patents.json") ∧
    (Report.loadCategoryFiles fs rsid dir).clinical =
      Report.load_json_file fs (dir ++ "/" ++ pyStrip (strLower rsid) ++ "_clinical.json") ∧
    (Report.loadCategoryFiles fs rsid dir).protein =
      Report.load_json_file fs (dir ++ "/" ++ pyStrip (strLower rsid) ++ "_protein.json") ∧
    (Report.loadCategoryFiles fs rsid dir).drug_targets =
      Report.load_json_file fs (dir ++ "/" ++ pyStrip (strLower rsid) ++ "_drug_targets.json") := by
  refine ⟨fun h => ?_, fun h => ?_, rfl, rfl, rfl, rfl, rfl, rfl⟩
  · unfold Report.load_json_file
    rw [h]
  · unfold Report.load_json_file
    rw [h]

/-- Witness for `c8_load_json_file` on the concrete filesystem `sampleFs`
(missing literature file, malformed patents file): both load as flagged
stand-ins, and the clinical category still loads its own (valid) file. -/
theorem c8_load_json_file_witness :
    Report.sampleFs "r/rs1_literature.json" = .missing ∧
    Report.load_json_file Report.sampleFs "r/rs1_literature.json" =
      .obj [("_unavailable", .bool true),
            ("errors", .arr [.str "File not found: r/rs1_literature.json"])] ∧
    Report.sampleFs "r/rs1_patents.json" = .invalid "Expecting value" ∧
    Report.load_json_file Report.sampleFs "r/rs1_patents.json" =
      .obj [("_unavailable", .bool true),
            ("errors", .arr [.str "Invalid JSON in r/rs1_patents.json: Expecting value"])] ∧
    (Report.loadCategoryFiles Report.sampleFs "RS1 " "r").clinical = .null := by
  have h := c8_load_json_file Report.sampleFs "r/rs1_literature.json" "Expecting value"
    "RS1 " "r"
  have h2 := c8_load_json_file Report.sampleFs "r/rs1_patents.json" "Expecting value"
    "RS1 " "r"
  exact ⟨rfl, h.1 rfl, rfl, h2.2.1 rfl, rfl⟩

/-- C4: a 404 from the GWAS associations endpoint yields an empty association
list with no error item, and consequently the clinical orchestrator records
no GWAS error: its error list equals the one it produces when the GWAS
fetcher returns an empty list. -/
theorem c4_gwas_404 (rsid gene_symbol : String) (body : List Clinical.RawGwasAssoc)
    (studyNet : String → Option String)
    (oc : Except String (List (SourceItem Clinical.ClinvarEntry)))
    (ot : Except String (List (SourceItem Clinical.TrialEntry))) :
    Clinical.fetch_gwas_associations rsid (.resp 404 body) studyNet = [] ∧
    (Clinical.fetch_all_clinical rsid gene_symbol oc ot
        (.ok (Clinical.fetch_gwas_associations rsid (.resp 404 body) studyNet))).gwas_associations
      = [] ∧
    (Clinical.fetch_all_clinical rsid gene_symbol oc ot
        (.ok (Clinical.fetch_gwas_associations rsid (.resp 404 body) studyNet))).errors
      = (Clinical.fetch_all_clinical rsid gene_symbol oc ot (.ok [])).errors := by
  have h404 : Clinical.fetch_gwas_associations rsid (.resp 404 body) studyNet = [] := by
    simp [Clinical.fetch_gwas_associations]
  refine ⟨h404, ?_, ?_⟩
  · rw [h404]
    rcases oc with e1 | i1 <;> rcases ot with e2 | i2 <;> rfl
  · rw [h404]

/-- C6: orchestrator isolation.  For `fetch_all_protein`: the top-level error
list is exactly the concatenation of the five sub-fetchers' contributions —
one `"<source> failed: <msg>"` string for a raising fetcher, the sub-result's
own `errors` for a returning one — each stored sub-result depends only on its
own call's outcome (so one sibling's failure leaves the others' results
unchanged), and every error string of a successfully returned sub-source
appears in the top-level list.  Likewise for `fetch_all_clinical` with its
three sub-fetchers. -/
theorem c6_orchestrator_isolation (rsid gene_symbol : String)
    (oS : Except String Protein.StringResult) (oH : Except String Protein.HpaResult)
    (oI : Except String Intact.IntactResult) (oB : Except String Bioplex.BioplexResult)
    (oG : Except String Biogrid.BiogridResult)
    (oc : Except String (List (SourceItem Clinical.ClinvarEntry)))
    (ot : Except String (List (SourceItem Clinical.TrialEntry)))
    (og : Except String (List (SourceItem Clinical.GwasEntry))) :
    ((Protein.fetch_all_protein rsid gene_symbol oS oH oI oB oG).errors =
        Protein.outcomeErrors "STRING-db failed: " Protein.StringResult.errors oS ++
        Protein.outcomeErrors "HPA failed: " Protein.HpaResult.errors oH ++
        Protein.outcomeErrors "IntAct failed: " Intact.IntactResult.errors oI ++
        Protein.outcomeErrors "BioPlex failed: " Bioplex.BioplexResult.errors oB ++
        Protein.outcomeErrors "BioGRID failed: " Biogrid.BiogridResult.errors oG) ∧
    ((Protein.fetch_all_protein rsid gene_symbol oS oH oI oB oG).string_interactions
        = oS.toOption ∧
     (Protein.fetch_all_protein rsid gene_symbol oS oH oI oB oG).hpa_expression
        = oH.toOption ∧
     (Protein.fetch_all_protein rsid gene_symbol oS oH oI oB oG).intact = oI.toOption ∧
     (Protein.fetch_all_protein rsid gene_symbol oS oH oI oB oG).bioplex = oB.toOption ∧
     (Protein.fetch_all_protein rsid gene_symbol oS oH oI oB oG).biogrid = oG.toOption) ∧
    ((∀ d, oS = .ok d → ∀ m ∈ d.errors,
        m ∈ (Protein.fetch_all_protein rsid gene_symbol oS oH oI oB oG).errors) ∧
     (∀ d, oH = .ok d → ∀ m ∈ d.errors,
        m ∈ (Protein.fetch_all_protein rsid gene_symbol oS oH oI oB oG).errors) ∧
     (∀ d, oI = .ok d → ∀ m ∈ d.errors,
        m ∈ (Protein.fetch_all_protein rsid gene_symbol oS oH oI oB oG).errors) ∧
     (∀ d, oB = .ok d → ∀ m ∈ d.errors,
        m ∈ (Protein.fetch_all_protein rsid gene_symbol oS oH oI oB oG).errors) ∧
     (∀ d, oG = .ok d → ∀ m ∈ d.errors,
        m ∈ (Protein.fetch_all_protein rsid gene_symbol oS oH oI oB oG).errors)) ∧
    ((Clinical.fetch_all_clinical rsid gene_symbol oc ot og).errors =
        sourceErrors "ClinVar failed: " oc ++
        sourceErrors "ClinicalTrials.gov failed: " ot ++
        sourceErrors "GWAS Catalog failed: " og) ∧
    ((Clinical.fetch_all_clinical rsid gene_symbol oc ot og).clinvar_entries
        = sourceEntries oc ∧
     (Clinical.fetch_all_clinical rsid gene_symbol oc ot og).clinical_trials
        = sourceEntries ot ∧
     (Clinical.fetch_all_clinical rsid gene_symbol oc ot og).gwas_associations
        = sourceEntries og) ∧
    ((∀ items, oc = .ok items → ∀ m ∈ (splitSourceItems items).2,
        m ∈ (Clinical.fetch_all_clinical rsid gene_symbol oc ot og).errors) ∧
     (∀ items, ot = .ok items → ∀ m ∈ (splitSourceItems items).2,
        m ∈ (Clinical.fetch_all_clinical rsid gene_symbol oc ot og).errors) ∧
     (∀ items, og = .ok items → ∀ m ∈ (splitSourceItems items).2,
        m ∈ (Clinical.fetch_all_clinical rsid gene_symbol oc ot og).errors)) := by
  have hperr : (Protein.fetch_all_protein rsid gene_symbol oS oH oI oB oG).errors =
      Protein.outcomeErrors "STRING-db failed: " Protein.StringResult.errors oS ++
      Protein.outcomeErrors "HPA failed: " Protein.HpaResult.errors oH ++
      Protein.outcomeErrors "IntAct failed: " Intact.IntactResult.errors oI ++
      Protein.outcomeErrors "BioPlex failed: " Bioplex.BioplexResult.errors oB ++
      Protein.outcomeErrors "BioGRID failed: " Biogrid.BiogridResult.errors oG := by
    rcases oS with e1 | d1 <;> rcases oH with e2 | d2 <;> rcases oI with e3 | d3 <;>
      rcases oB with e4 | d4 <;> rcases oG with e5 | d5 <;>
      simp [Protein.fetch_all_protein, Protein.outcomeErrors]
  have hcerr : (Clinical.fetch_all_clinical rsid gene_symbol oc ot og).errors =
      sourceErrors "ClinVar failed: " oc ++
      sourceErrors "ClinicalTrials.gov failed: " ot ++
      sourceErrors "GWAS Catalog failed: " og := by
    rcases oc with e1 | i1 <;> rcases ot with e2 | i2 <;> rcases og with e3 | i3 <;>
      simp [Clinical.fetch_all_clinical, sourceErrors]
  refine ⟨hperr, ?_, ⟨?_, ?_, ?_, ?_, ?_⟩, hcerr, ?_, ⟨?_, ?_, ?_⟩⟩
  · rcases oS with e1 | d1 <;> rcases oH with e2 | d2 <;> rcases oI with e3 | d3 <;>
      rcases oB with e4 | d4 <;> rcases oG with e5 | d5 <;>
      exact ⟨rfl, rfl, rfl, rfl, rfl⟩
  · intro d hd m hm
    rw [hperr, hd]
    simp only [Protein.outcomeErrors, List.mem_append]
    tauto
  · intro d hd m hm
    rw [hperr, hd]
    simp only [Protein.outcomeErrors, List.mem_append]
    tauto
  · intro d hd m hm
    rw [hperr, hd]
    simp only [Protein.outcomeErrors, List.mem_append]
    tauto
  · intro d hd m hm
    rw [hperr, hd]
    simp only [Protein.outcomeErrors, List.mem_append]
    tauto
  · intro d hd m hm
    rw [hperr, hd]
    simp only [Protein.outcomeErrors, List.mem_append]
    tauto
  · rcases oc with e1 | i1 <;> rcases ot with e2 | i2 <;> rcases og with e3 | i3 <;>
      exact ⟨rfl, rfl, rfl⟩
  · intro items hd m hm
    rw [hcerr, hd]
    simp only [sourceErrors, List.mem_append]
    tauto
  · intro items hd m hm
    rw [hcerr, hd]
    simp only [sourceErrors, List.mem_append]
    tauto
  · intro items hd m hm
    rw [hcerr, hd]
    simp only [sourceErrors, List.mem_append]
    tauto

/-- Witness for `c6_orchestrator_isolation` at concrete outcomes: the BioPlex
fetcher raises `"boom"` while IntAct returns successfully with one in-band
error string; the orchestrator keeps the IntAct result, leaves the BioPlex
slot empty, and its error list is exactly the IntAct warning followed by the
BioPlex failure string.  The clinical orchestrator likewise flattens an
in-band ClinVar error marker into its top-level list. -/
theorem c6_orchestrator_isolation_witness :
    (Protein.fetch_all_protein "rs1" "g" (.ok Protein.emptyStringResult)
        (.ok Protein.emptyHpaResult) (.ok Protein.sampleIntactResult) (.error "boom")
        (.ok Protein.emptyBiogridResult)).errors
      = ["intact warning", "BioPlex failed: boom"] ∧
    (Protein.fetch_all_protein "rs1" "g" (.ok Protein.emptyStringResult)
        (.ok Protein.emptyHpaResult) (.ok Protein.sampleIntactResult) (.error "boom")
        (.ok Protein.emptyBiogridResult)).intact = some Protein.sampleIntactResult ∧
    (Protein.fetch_all_protein "rs1" "g" (.ok Protein.emptyStringResult)
        (.ok Protein.emptyHpaResult) (.ok Protein.sampleIntactResult) (.error "boom")
        (.ok Protein.emptyBiogridResult)).bioplex = none ∧
    "intact warning" ∈ (Protein.fetch_all_protein "rs1" "g" (.ok Protein.emptyStringResult)
        (.ok Protein.emptyHpaResult) (.ok Protein.sampleIntactResult) (.error "boom")
        (.ok Protein.emptyBiogridResult)).errors ∧
    (Clinical.fetch_all_clinical "rs1" "g" (.ok [.error "ce"]) (.ok []) (.ok [])).errors
      = ["ce"] ∧
    "ce" ∈ (Clinical.fetch_all_clinical "rs1" "g" (.ok [.error "ce"]) (.ok [])
        (.ok [])).errors := by
  have h := c6_orchestrator_isolation "rs1" "g" (.ok Protein.emptyStringResult)
    (.ok Protein.emptyHpaResult) (.ok Protein.sampleIntactResult) (.error "boom")
    (.ok Protein.emptyBiogridResult) (.ok [.error "ce"]) (.ok []) (.ok [])
  refine ⟨?_, h.2.1.2.2.1, h.2.1.2.2.2.1, ?_, ?_, ?_⟩
  · rw [h.1]; rfl
  · exact h.2.2.1.2.2.1 Protein.sampleIntactResult rfl "intact warning" (by decide)
  · rw [h.2.2.2.1]; rfl
  · exact h.2.2.2.2.2.1 [.error "ce"] rfl "ce" (by decide)

/-- Helper for C7: a rate-limited attempt starts no sooner than the minimum
interval after the previously recorded request time, and records its own
start time. -/
theorem ncbiAttempt_start (minInterval : ℚ) (o : Ncbi.NcbiOutcome) (s : Ncbi.NcbiState) :
    s.lastRequestTime + minInterval ≤ (Ncbi.ncbiAttempt minInterval o s).1 ∧
    (Ncbi.ncbiAttempt minInterval o s).2.lastRequestTime =
      (Ncbi.ncbiAttempt minInterval o s).1 := by
  unfold Ncbi.ncbiAttempt
  constructor
  · by_cases h : s.now - s.lastRequestTime < minInterval
    · simp only [h, if_true]
      linarith
    · simp only [h, if_false]
      linarith [not_lt.mp h]
  · rfl

/-- Helper for C7: every request the retry loop issues starts at least the
minimum interval after the previously recorded one. -/
theorem ncbiLoop_chain (minInterval : ℚ) (net : Nat → Ncbi.NcbiOutcome)
    (fuel attempt : Nat) (s : Ncbi.NcbiState) :
    List.Chain' (fun a b => a + minInterval ≤ b)
      (s.lastRequestTime :: (Ncbi.ncbiLoop minInterval net attempt fuel s).requests) := by
  induction fuel generalizing attempt s with
  | zero => simp [Ncbi.ncbiLoop]
  | succ f ih =>
    have hstart := ncbiAttempt_start minInterval (net attempt) s
    unfold Ncbi.ncbiLoop
    generalize hstep : Ncbi.ncbiAttempt minInterval (net attempt) s = step at hstart ⊢
    obtain ⟨t, s1⟩ := step
    simp only at hstart
    cases hr : (net attempt).resp with
    | ok =>
      simp only [List.chain'_cons, List.chain'_singleton, and_true]
      exact hstart.1
    | httpErr =>
      simp only [List.chain'_cons, List.chain'_singleton, and_true]
      exact hstart.1
    | tooMany ra =>
      simp only [List.chain'_cons]
      refine ⟨hstart.1, ?_⟩
      have h2 := ih (attempt + 1) { s1 with now := s1.now + ra }
      simp only at h2
      rw [← hstart.2]
      exact h2
    | connErr =>
      cases f with
      | zero =>
        simp only [List.chain'_cons, List.chain'_singleton, and_true]
        exact hstart.1
      | succ f' =>
        simp only [List.chain'_cons]
        refine ⟨hstart.1, ?_⟩
        have h2 := ih (attempt + 1) { s1 with now := s1.now + 2 ^ attempt }
        simp only at h2
        rw [← hstart.2]
        exact h2

/-- Helper for C7: the loop's request log is what `ncbi_get` reports. -/
theorem ncbi_get_loopRequests (envApiKey : Option String) (net : Nat → Ncbi.NcbiOutcome)
    (s : Ncbi.NcbiState) (max_retries : Nat) :
    (Ncbi.ncbi_get envApiKey net s max_retries).loopRequests =
      (Ncbi.ncbiLoop (Ncbi.NCBI_MIN_INTERVAL envApiKey) net 0 max_retries s).requests := by
  unfold Ncbi.ncbi_get
  rcases hl : Ncbi.ncbiLoop (Ncbi.NCBI_MIN_INTERVAL envApiKey) net 0 max_retries s
    with ⟨s1, reqs, ex⟩
  cases ex <;> rfl

/-- C7 (amended): the minimum inter-request interval is 0.35 s without an
NCBI API key and 0.11 s with one, and every request issued by the
rate-limited retry loop of `ncbi_get` — including retries after a 429 —
starts at least that interval after the previously recorded request (the one
before it in this call, or the last request of the previous call).  The
final attempt issued after the retry loop exhausts is not covered by the
proactive delay (see the counterexample). -/
theorem c7_loop_rate_limiting (envApiKey : Option String) (net : Nat → Ncbi.NcbiOutcome)
    (s : Ncbi.NcbiState) (max_retries : Nat) :
    Ncbi.NCBI_MIN_INTERVAL none = 35/100 ∧
    (∀ k : String, k ≠ "" → Ncbi.NCBI_MIN_INTERVAL (some k) = 11/100) ∧
    List.Chain' (fun a b => a + Ncbi.NCBI_MIN_INTERVAL envApiKey ≤ b)
      (s.lastRequestTime :: (Ncbi.ncbi_get envApiKey net s max_retries).loopRequests) := by
  refine ⟨rfl, fun k hk => ?_, ?_⟩
  · unfold Ncbi.NCBI_MIN_INTERVAL
    rw [if_neg]
    simpa using hk
  · rw [ncbi_get_loopRequests]
    exact ncbiLoop_chain _ net max_retries 0 s

/-- Witness for `c7_loop_rate_limiting`: a concrete two-attempt run (a 429
then a success, 0.1 s latencies, no API key) whose two loop requests start
0.35 s + retry-after apart. -/
theorem c7_loop_rate_limiting_witness :
    ("abc" : String) ≠ "" ∧ Ncbi.NCBI_MIN_INTERVAL (some "abc") = 11/100 ∧
    List.Chain' (fun a b => a + Ncbi.NCBI_MIN_INTERVAL none ≤ b)
      ((0 : ℚ) ::
        (Ncbi.ncbi_get none
          (fun n => if n = 0 then ⟨1/10, .tooMany 2⟩ else ⟨1/10, .ok⟩)
          ⟨0, 0⟩ 3).loopRequests) := by
  have h := c7_loop_rate_limiting none
    (fun n => if n = 0 then ⟨1/10, .tooMany 2⟩ else ⟨1/10, .ok⟩) ⟨0, 0⟩ 3
  exact ⟨by decide, h.2.1 "abc" (by decide), h.2.2⟩

/-- C7 counterexample: the claim as stated — that *every* two successive
requests, including the final attempt after the retry loop, are at least the
minimum interval apart — is false.  With no API key, `max_retries = 1`, a
zero-latency 429 carrying `retry-after: 0`, the single loop request starts
at time 0 and the post-loop final attempt also starts at time 0: the two
successive requests are 0 s apart, less than the required 0.35 s. -/
theorem c7_counterexample :
    (Ncbi.ncbi_get none (fun _ => ⟨0, .tooMany 0⟩) ⟨0, -1⟩ 1).loopRequests = [0] ∧
    (Ncbi.ncbi_get none (fun _ => ⟨0, .tooMany 0⟩) ⟨0, -1⟩ 1).finalRequest = some 0 ∧
    ¬ ((0 : ℚ) + Ncbi.NCBI_MIN_INTERVAL none ≤ 0) := by
  have hrun : Ncbi.ncbi_get none (fun _ => ⟨0, .tooMany 0⟩) ⟨0, -1⟩ 1 =
      ⟨⟨0, 0⟩, [0], some 0, .raised⟩ := by
    norm_num [Ncbi.ncbi_get, Ncbi.ncbiLoop, Ncbi.ncbiAttempt, Ncbi.NCBI_MIN_INTERVAL]
  rw [hrun]
  refine ⟨rfl, rfl, ?_⟩
  norm_num [Ncbi.NCBI_MIN_INTERVAL]

/-- Helper for C9: the success-branch extraction never changes the `rsid`
field. -/
theorem resolveFromHits_rsid (rsid : String) (base : Resolve.VariantResult)
    (geneNameNet : Json → Option String) (data : Json) :
    ((Resolve.resolveFromHits rsid base geneNameNet data).1).rsid = base.rsid := by
  unfold Resolve.resolveFromHits
  dsimp only
  split <;> rfl

/-- Helper for C9: every `.ok` outcome of the retry loop keeps the base
result's `rsid`. -/
theorem resolveAttempts_rsid (rsid : String) (base : Resolve.VariantResult)
    (net : Nat → Except String Json) (geneNameNet : Json → Option String)
    (fuel attempt : Nat) (r : Resolve.VariantResult)
    (h : (Resolve.resolveAttempts rsid base net geneNameNet attempt fuel).1 = .ok r) :
    r.rsid = base.rsid := by
  induction fuel generalizing attempt with
  | zero =>
    unfold Resolve.resolveAttempts at h
    cases h
    rfl
  | succ f ih =>
    unfold Resolve.resolveAttempts at h
    cases hn : net attempt with
    | ok data =>
      rw [hn] at h
      simp only at h
      cases h
      exact resolveFromHits_rsid rsid base geneNameNet data
    | error e =>
      rw [hn] at h
      cases f with
      | zero =>
        simp only at h
        cases h
        rfl
      | succ f' =>
        simp only at h
        exact ih (attempt + 1) h

/-- C9: `resolve_variant` strips and lowercases its argument before
validating the `rs` prefix.  When the normalized form does not start with
`rs`, the returned value is the error-only record (no rsid/gene/errors
fields) and no HTTP request is made; every non-rejected result carries the
normalized rsID in its `rsid` field. -/
theorem c9_resolve_variant (rsid : String) (net : Nat → Except String Json)
    (geneNameNet : Json → Option String) (max_retries : Nat) :
    (¬ strStartsWith (strLower (pyStrip rsid)) "rs" = true →
      (Resolve.resolve_variant rsid net geneNameNet max_retries).1 =
        .invalid ("Invalid rsID format: " ++ strLower (pyStrip rsid) ++
          ". Expected format: rs12345") ∧
      (Resolve.resolve_variant rsid net geneNameNet max_retries).2 = 0) ∧
    (∀ r, (Resolve.resolve_variant rsid net geneNameNet max_retries).1 = .ok r →
      r.rsid = strLower (pyStrip rsid)) := by
  constructor
  · intro h
    unfold Resolve.resolve_variant
    rw [if_pos h]
    exact ⟨rfl, rfl⟩
  · intro r h
    unfold Resolve.resolve_variant at h
    by_cases hv : strStartsWith (strLower (pyStrip rsid)) "rs" = true
    · rw [if_neg (by simp [hv])] at h
      exact resolveAttempts_rsid _ _ net geneNameNet _ 0 r h
    · rw [if_pos hv] at h
      exact absurd h (by simp)

/-- Witness for `c9_resolve_variant`: `" xyz "` normalizes to `"xyz"` and is
rejected with the error-only value and zero requests; the mixed-case
`"RS699"` is accepted, resolving (against a no-hits response) to a result
whose `rsid` is the lowercased `"rs699"`. -/
theorem c9_resolve_variant_witness :
    ¬ strStartsWith (strLower (pyStrip " xyz ")) "rs" = true ∧
    (Resolve.resolve_variant " xyz " Resolve.emptyHitsNet Resolve.noGeneNameNet 1).1 =
      .invalid "Invalid rsID format: xyz. Expected format: rs12345" ∧
    (Resolve.resolve_variant " xyz " Resolve.emptyHitsNet Resolve.noGeneNameNet 1).2 = 0 ∧
    (Resolve.resolve_variant "RS699" Resolve.emptyHitsNet Resolve.noGeneNameNet 1).1 =
      .ok Resolve.sampleResolved ∧
    Resolve.sampleResolved.rsid = "rs699" := by
  have h1 := (c9_resolve_variant " xyz " Resolve.emptyHitsNet Resolve.noGeneNameNet 1).1
    (by decide)
  have h2 := (c9_resolve_variant "RS699" Resolve.emptyHitsNet Resolve.noGeneNameNet 1).2
    Resolve.sampleResolved (by rfl)
  refine ⟨by decide, h1.1, h1.2, by rfl, ?_⟩
  rw [h2]
  rfl

end VariantResearch
